import Mathlib

/-!
# Hyundai CAN-FD safety hooks (`opendbc/safety/safety/safety_hyundai_canfd.h`)

A shallow embedding of the rx / tx / fwd / init hooks of the Hyundai CAN-FD
safety mode, followed by theorems about them.

Conventions of the embedding:

* C `int` values that stay far inside the 32-bit range are `Int`; bytes and
  unsigned expressions are `Nat`.  Where the source subtracts an unsigned
  constant (`- 1024U`, `- 1023U`) the subtraction is done modulo `2 ^ 32` and
  then reinterpreted as a signed 32-bit value, as the C conversion does.
* The module-level flags are the record `Globals`.
* `hyundai_canfd_rx_hook` reads no tracker; it is modelled by the ordered
  list of writes and calls into the safety core that it performs (`RxCall`).
* `hyundai_canfd_tx_hook` reads `controls_allowed` and `cruise_engaged_prev`
  and calls the shared limiters, which keep history; the safety-core state is
  passed explicitly (`Trackers`), the limiters are parameters (`Limiters`).
-/

namespace HyundaiCanfd

/-! ## Frames and frame accessors -/

/-- Modelled from the spec: the frame type `CANPacket_t` is declared in
`safety_declarations.h`, outside this file.  The spec
(sections 3 and 6) describes a frame as an address, a source bus index, a
payload length and payload bytes. -/
structure CANPacket_t where
  addr : Int
  bus : Int
  len : Nat
  data : List Nat
deriving DecidableEq, Repr

/-- Modelled from the spec: accessor `GET_ADDR` (address of the frame). -/
def GET_ADDR (p : CANPacket_t) : Int := p.addr

/-- Modelled from the spec: accessor `GET_BUS` (source bus index). -/
def GET_BUS (p : CANPacket_t) : Int := p.bus

/-- Modelled from the spec: accessor `GET_LEN` (payload length). -/
def GET_LEN (p : CANPacket_t) : Nat := p.len

/-- Modelled from the spec: accessor `GET_BYTE` (byte at offset).  A payload
byte is a `uint8_t`, hence the reduction modulo 256; offsets past the stored
payload read as zero. -/
def GET_BYTE (p : CANPacket_t) (i : Nat) : Nat := (p.data.getD i 0) % 256

/-- Modelled from the spec: accessor `GET_BIT` (bit at offset): bit `b % 8`
of byte `b / 8`. -/
def GET_BIT (p : CANPacket_t) (b : Nat) : Bool :=
  ((GET_BYTE p (b / 8)) >>> (b % 8)) &&& 1 != 0

/-- Modelled from the spec: accessor `GET_BYTES` (multi-byte span as an
integer), little-endian as for the checksum field: byte `start + i` is
shifted left by `8 * i`. -/
def GET_BYTES (p : CANPacket_t) (start : Nat) : Nat → Nat
  | 0 => 0
  | n + 1 => GET_BYTES p start n ||| ((GET_BYTE p (start + n)) <<< (8 * n))

/-- Modelled from the spec: `GET_FLAG(value, mask)` tests that every bit of
the single-bit (or multi-bit) mask is set in the value. -/
def GET_FLAG (value mask : Nat) : Bool := (value &&& mask) == mask

/-- Modelled from the spec: `to_signed(d, bits)` sign-extends the low `bits`
bits of a non-negative `d` (section 4.1, "sign-extended"). -/
def to_signed (d : Int) (bits : Nat) : Int :=
  if d ≥ (2 : Int) ^ (bits - 1) then d - (2 : Int) ^ bits else d

/-- Conversion of an `unsigned int` value to `int` (two's complement). -/
def u32_to_int (x : Nat) : Int :=
  if x % 2 ^ 32 < 2 ^ 31 then ((x % 2 ^ 32 : Nat) : Int)
  else ((x % 2 ^ 32 : Nat) : Int) - (2 : Int) ^ 32

/-- Unsigned 32-bit subtraction `a - b` of the C source. -/
def u32_sub (a b : Nat) : Nat := (a % 2 ^ 32 + 2 ^ 32 - b % 2 ^ 32) % 2 ^ 32

/-! ## Module state -/

/-- The module-level configuration flags: the three statics of this file,
the flags owned by `safety_hyundai_common.h`, and the CRC table seeded by
`hyundai_canfd_init`. -/
structure Globals where
  hyundai_canfd_alt_buttons : Bool
  hyundai_canfd_lka_steering_alt : Bool
  hyundai_canfd_angle_steering : Bool
  hyundai_longitudinal : Bool
  hyundai_camera_scc : Bool
  hyundai_canfd_lka_steering : Bool
  hyundai_ev_gas_signal : Bool
  hyundai_hybrid_gas_signal : Bool
  hyundai_canfd_crc_lut : List Nat
deriving DecidableEq, Repr

/-- Constants and initialisation routines that `safety_hyundai_common.h` and
the safety core provide; their values are fixed outside this file and are
taken as parameters. -/
structure HyundaiCommon where
  HYUNDAI_BTN_RESUME : Int
  HYUNDAI_BTN_CANCEL : Int
  HYUNDAI_STANDSTILL_THRSLD : Nat
  hyundai_common_init : Nat → Globals → Globals
  gen_crc_lookup_table_16 : Nat → List Nat

/-- The trackers of the safety core that the tx hook reads, with the history
`core` that the shared limiter algorithms keep. -/
structure Trackers (σ : Type) where
  controls_allowed : Bool
  cruise_engaged_prev : Bool
  core : σ

/-- Steering control type of a limit profile. -/
inductive SteeringControlType where
  | TorqueMotorLimited
  | TorqueDriverLimited
deriving DecidableEq, Repr

/-- The fields of `SteeringLimits` that `HYUNDAI_CANFD_STEERING_LIMITS`
initialises.  The two lookup tables hold decimal literals, kept exactly. -/
structure SteeringLimits where
  max_steer : Int
  max_rt_delta : Int
  max_rt_interval : Nat
  max_rate_up : Int
  max_rate_down : Int
  driver_torque_allowance : Int
  driver_torque_factor : Int
  type : SteeringControlType
  min_valid_request_frames : Int
  max_invalid_request_frames : Int
  min_valid_request_rt_interval : Nat
  has_steer_req_tolerance : Bool
  angle_deg_to_can : Int
  angle_rate_up_lookup : List ℚ × List ℚ
  angle_rate_down_lookup : List ℚ × List ℚ

/-- The local constant `HYUNDAI_CANFD_STEERING_LIMITS` of the tx hook. -/
def HYUNDAI_CANFD_STEERING_LIMITS : SteeringLimits :=
  { max_steer := 270
    max_rt_delta := 112
    max_rt_interval := 250000
    max_rate_up := 2
    max_rate_down := 3
    driver_torque_allowance := 250
    driver_torque_factor := 2
    type := SteeringControlType.TorqueDriverLimited
    min_valid_request_frames := 89
    max_invalid_request_frames := 2
    min_valid_request_rt_interval := 810000
    has_steer_req_tolerance := true
    angle_deg_to_can := 10
    angle_rate_up_lookup := ([0, 5, 25], [5 / 2, 3 / 2, 1 / 5])
    angle_rate_down_lookup := ([0, 5, 25], [5, 2, 3 / 10]) }

/-- The shared limiter algorithms (torque, angle, longitudinal acceleration)
and the longitudinal limit profile, all defined outside this file.  Each
limiter reports a violation and may update the safety-core state. -/
structure Limiters (σ : Type) where
  LongitudinalLimits : Type
  HYUNDAI_LONG_LIMITS : LongitudinalLimits
  steer_torque_cmd_checks : Trackers σ → Int → Bool → SteeringLimits → Bool × Trackers σ
  steer_angle_cmd_checks : Trackers σ → Int → Bool → SteeringLimits → Bool × Trackers σ
  longitudinal_accel_checks : Trackers σ → Int → LongitudinalLimits → Bool × Trackers σ

/-! ## Decoders -/

/-- `hyundai_canfd_get_lka_addr`. -/
def hyundai_canfd_get_lka_addr (g : Globals) : Int :=
  if g.hyundai_canfd_lka_steering_alt then 0x110 else 0x50

/-- `hyundai_canfd_get_counter`; the result is a `uint8_t`. -/
def hyundai_canfd_get_counter (to_push : CANPacket_t) : Nat :=
  if GET_LEN to_push = 8 then
    ((GET_BYTE to_push 1) >>> 4) % 256
  else
    (GET_BYTE to_push 2) % 256

/-- `hyundai_canfd_get_checksum`; the result is a `uint32_t`. -/
def hyundai_canfd_get_checksum (to_push : CANPacket_t) : Nat :=
  (GET_BYTE to_push 0 ||| ((GET_BYTE to_push 1) <<< 8)) % 2 ^ 32

/-! ## Inbound validator -/

/-- One write to a tracker, or one call into the safety core, performed by
`hyundai_canfd_rx_hook`. -/
inductive RxCall where
  | update_sample_torque_driver (sample_new : Int)
  | update_sample_angle_meas (sample_new : Int)
  | hyundai_common_cruise_buttons_check (cruise_button : Int) (main_button : Bool)
  | set_gas_pressed (v : Bool)
  | set_brake_pressed (v : Bool)
  | set_vehicle_moving (v : Bool)
  | hyundai_common_cruise_state_check (cruise_engaged : Bool)
  | generic_rx_checks (stock_ecu_detected : Bool)
deriving DecidableEq, Repr

/-- The part of `hyundai_canfd_rx_hook` guarded by `bus == pt_bus`. -/
def rx_pt_bus (c : HyundaiCommon) (g : Globals) (to_push : CANPacket_t) : List RxCall :=
  let addr := GET_ADDR to_push
  -- driver torque
  (if addr = 0xea then
    let torque_driver_new : Int :=
      ((((GET_BYTE to_push 11) &&& 0x1f) <<< 8) ||| GET_BYTE to_push 10 : Nat)
    let torque_driver_new := torque_driver_new - 4095
    [RxCall.update_sample_torque_driver torque_driver_new]
  else []) ++
  -- steering angle
  (if addr = 0x125 then
    let angle_meas_new : Int := ((((GET_BYTE to_push 3) <<< 8) ||| GET_BYTE to_push 4 : Nat) : Int)
    let angle_meas_new := to_signed angle_meas_new 16 * (-10)
    [RxCall.update_sample_angle_meas angle_meas_new]
  else []) ++
  -- cruise buttons
  (let button_addr : Int := if g.hyundai_canfd_alt_buttons then 0x1aa else 0x1cf
   if addr = button_addr then
     if addr = 0x1cf then
       let cruise_button : Int := (((GET_BYTE to_push 2) &&& 0x7 : Nat) : Int)
       let main_button := GET_BIT to_push 19
       [RxCall.hyundai_common_cruise_buttons_check cruise_button main_button]
     else
       let cruise_button : Int := (((((GET_BYTE to_push 4) >>> 4) &&& 0x7 : Nat)) : Int)
       let main_button := GET_BIT to_push 34
       [RxCall.hyundai_common_cruise_buttons_check cruise_button main_button]
   else []) ++
  -- gas press, different for EV, hybrid, and ICE models
  (if addr = 0x35 ∧ g.hyundai_ev_gas_signal = true then
    [RxCall.set_gas_pressed (GET_BYTE to_push 5 != 0)]
  else if addr = 0x105 ∧ g.hyundai_hybrid_gas_signal = true then
    [RxCall.set_gas_pressed
      (GET_BIT to_push 103 || (GET_BYTE to_push 13 != 0) || GET_BIT to_push 112)]
  else if addr = 0x100 ∧ g.hyundai_ev_gas_signal = false
      ∧ g.hyundai_hybrid_gas_signal = false then
    [RxCall.set_gas_pressed (GET_BIT to_push 176)]
  else []) ++
  -- brake press
  (if addr = 0x175 then [RxCall.set_brake_pressed (GET_BIT to_push 81)] else []) ++
  -- vehicle moving
  (if addr = 0xa0 then
    let front_left_speed := GET_BYTES to_push 8 2
    let rear_right_speed := GET_BYTES to_push 14 2
    [RxCall.set_vehicle_moving
      (decide (front_left_speed > c.HYUNDAI_STANDSTILL_THRSLD)
        || decide (rear_right_speed > c.HYUNDAI_STANDSTILL_THRSLD))]
  else [])

/-- The part of `hyundai_canfd_rx_hook` guarded by `bus == scc_bus`. -/
def rx_scc_bus (g : Globals) (to_push : CANPacket_t) : List RxCall :=
  let addr := GET_ADDR to_push
  if addr = 0x1a0 ∧ g.hyundai_longitudinal = false then
    -- 1=enabled, 2=driver override
    let cruise_status : Int := ((((GET_BYTE to_push 8) >>> 4) &&& 0x7 : Nat) : Int)
    let cruise_engaged := decide (cruise_status = 1) || decide (cruise_status = 2)
    [RxCall.hyundai_common_cruise_state_check cruise_engaged]
  else []

/-- The local `pt_bus` of `hyundai_canfd_rx_hook`. -/
def rx_pt_bus_num (g : Globals) : Int := if g.hyundai_canfd_lka_steering then 1 else 0

/-- The local `scc_bus` of `hyundai_canfd_rx_hook`. -/
def rx_scc_bus_num (g : Globals) : Int := if g.hyundai_camera_scc then 2 else rx_pt_bus_num g

/-- The local `steer_addr` of `hyundai_canfd_rx_hook`. -/
def rx_steer_addr (g : Globals) : Int :=
  if g.hyundai_canfd_lka_steering then hyundai_canfd_get_lka_addr g else 0x12a

/-- The value `stock_ecu_detected` that `hyundai_canfd_rx_hook` computes. -/
def rx_stock_ecu_detected (g : Globals) (to_push : CANPacket_t) : Bool :=
  let bus := GET_BUS to_push
  let addr := GET_ADDR to_push
  let steer_addr : Int := rx_steer_addr g
  let stock_ecu_detected := decide (addr = steer_addr) && decide (bus = 0)
  if g.hyundai_longitudinal then
    -- on LKA steering cars, ensure ADRV ECU is still knocked out
    -- on others, ensure accel msg is blocked from camera
    let stock_scc_bus : Int := if g.hyundai_canfd_lka_steering then 1 else 0
    stock_ecu_detected || (decide (addr = 0x1a0) && decide (bus = stock_scc_bus))
  else stock_ecu_detected

/-- `hyundai_canfd_rx_hook`: the writes and calls it performs, in order. -/
def hyundai_canfd_rx_hook (c : HyundaiCommon) (g : Globals) (to_push : CANPacket_t) :
    List RxCall :=
  let bus := GET_BUS to_push
  let pt_bus : Int := rx_pt_bus_num g
  let scc_bus : Int := rx_scc_bus_num g
  (if bus = pt_bus then rx_pt_bus c g to_push else []) ++
  (if bus = scc_bus then rx_scc_bus g to_push else []) ++
  [RxCall.generic_rx_checks (rx_stock_ecu_detected g to_push)]

/-! ## Outbound validator -/

/-- The steering command address that `hyundai_canfd_tx_hook` checks. -/
def tx_steer_addr (g : Globals) : Int :=
  if g.hyundai_canfd_lka_steering && !g.hyundai_longitudinal then
    hyundai_canfd_get_lka_addr g
  else 0x12a

/-- Desired angle decoded by the tx hook in angle mode. -/
def tx_desired_angle (to_send : CANPacket_t) : Int :=
  let desired_angle : Int :=
    (((((GET_BYTE to_send 10) &&& 0x3F) <<< 8) ||| GET_BYTE to_send 11 : Nat) : Int)
  -- Multiply by -10 to apply the DBC scaling factor of -0.1 for LKAS_ANGLE_CMD
  to_signed desired_angle 14 * (-HYUNDAI_CANFD_STEERING_LIMITS.angle_deg_to_can)

/-- Angle request flag decoded by the tx hook in angle mode. -/
def tx_steer_angle_req (to_send : CANPacket_t) : Bool :=
  let lka_active_angle := ((GET_BYTE to_send 9) >>> 5) &&& 0x3
  lka_active_angle == 2

/-- Desired torque decoded by the tx hook in torque mode. -/
def tx_desired_torque (to_send : CANPacket_t) : Int :=
  u32_to_int (u32_sub ((((GET_BYTE to_send 6) &&& 0xF) <<< 7) ||| ((GET_BYTE to_send 5) >>> 1)) 1024)

/-- Torque request flag decoded by the tx hook in torque mode. -/
def tx_steer_req (to_send : CANPacket_t) : Bool := GET_BIT to_send 52

/-- First acceleration field decoded by the tx hook. -/
def tx_desired_accel_raw (to_send : CANPacket_t) : Int :=
  u32_to_int (u32_sub ((((GET_BYTE to_send 17) &&& 0x7) <<< 8) ||| GET_BYTE to_send 16) 1023)

/-- Second acceleration field decoded by the tx hook. -/
def tx_desired_accel_val (to_send : CANPacket_t) : Int :=
  u32_to_int (u32_sub (((GET_BYTE to_send 18) <<< 4) ||| ((GET_BYTE to_send 17) >>> 4)) 1023)

/-- The `// steering` block of the tx hook, acting on `tx` and the trackers. -/
def tx_steering {σ : Type} (L : Limiters σ) (g : Globals) (to_send : CANPacket_t)
    (st : Bool × Trackers σ) : Bool × Trackers σ :=
  if GET_ADDR to_send = tx_steer_addr g then
    if g.hyundai_canfd_angle_steering then
      let r := L.steer_angle_cmd_checks st.2 (tx_desired_angle to_send)
        (tx_steer_angle_req to_send) HYUNDAI_CANFD_STEERING_LIMITS
      (if r.1 then false else st.1, r.2)
    else
      let r := L.steer_torque_cmd_checks st.2 (tx_desired_torque to_send)
        (tx_steer_req to_send) HYUNDAI_CANFD_STEERING_LIMITS
      (if r.1 then false else st.1, r.2)
  else st

/-- The `// cruise buttons check` block of the tx hook. -/
def tx_buttons {σ : Type} (c : HyundaiCommon) (to_send : CANPacket_t)
    (st : Bool × Trackers σ) : Bool × Trackers σ :=
  if GET_ADDR to_send = 0x1cf then
    let button : Int := (((GET_BYTE to_send 2) &&& 0x7 : Nat) : Int)
    let is_cancel := decide (button = c.HYUNDAI_BTN_CANCEL)
    let is_resume := decide (button = c.HYUNDAI_BTN_RESUME)
    let allowed := (is_cancel && st.2.cruise_engaged_prev) || (is_resume && st.2.controls_allowed)
    (if !allowed then false else st.1, st.2)
  else st

/-- The `// UDS` block of the tx hook: only tester present is allowed on the
diagnostics address. -/
def tx_uds {σ : Type} (g : Globals) (to_send : CANPacket_t)
    (st : Bool × Trackers σ) : Bool × Trackers σ :=
  if GET_ADDR to_send = 0x730 ∧ g.hyundai_canfd_lka_steering = true then
    if GET_BYTES to_send 0 4 ≠ 0x00803E02 ∨ GET_BYTES to_send 4 4 ≠ 0x0 then
      (false, st.2)
    else st
  else st

/-- The `// ACCEL: safety check` block of the tx hook. -/
def tx_accel {σ : Type} (L : Limiters σ) (g : Globals) (to_send : CANPacket_t)
    (st : Bool × Trackers σ) : Bool × Trackers σ :=
  if GET_ADDR to_send = 0x1a0 then
    let desired_accel_raw := tx_desired_accel_raw to_send
    let desired_accel_val := tx_desired_accel_val to_send
    let violation := false
    if g.hyundai_longitudinal then
      let r1 := L.longitudinal_accel_checks st.2 desired_accel_raw L.HYUNDAI_LONG_LIMITS
      let violation := violation || r1.1
      let r2 := L.longitudinal_accel_checks r1.2 desired_accel_val L.HYUNDAI_LONG_LIMITS
      let violation := violation || r2.1
      (if violation then false else st.1, r2.2)
    else
      -- only used to cancel on here
      let violation :=
        if desired_accel_raw ≠ 0 ∨ desired_accel_val ≠ 0 then true else violation
      (if violation then false else st.1, st.2)
  else st

/-- `hyundai_canfd_tx_hook`: the returned `tx` and the trackers after the
limiter calls. -/
def hyundai_canfd_tx_hook {σ : Type} (c : HyundaiCommon) (L : Limiters σ) (g : Globals)
    (s : Trackers σ) (to_send : CANPacket_t) : Bool × Trackers σ :=
  tx_accel L g to_send (tx_uds g to_send (tx_buttons c to_send (tx_steering L g to_send (true, s))))

/-! ## Bus forwarding policy -/

/-- `hyundai_canfd_fwd_hook`. -/
def hyundai_canfd_fwd_hook (g : Globals) (bus_num addr : Int) : Int :=
  let bus_fwd : Int := -1
  let bus_fwd : Int := if bus_num = 0 then 2 else bus_fwd
  if bus_num = 2 then
    -- LKAS for cars with LKAS and LFA messages, LFA for cars with no LKAS messages
    let lfa_block_addr : Int := if g.hyundai_canfd_lka_steering_alt then 0x362 else 0x2a4
    let is_lka_msg :=
      (decide (addr = hyundai_canfd_get_lka_addr g) || decide (addr = lfa_block_addr))
        && g.hyundai_canfd_lka_steering
    let is_lfa_msg := decide (addr = 0x12a) && !g.hyundai_canfd_lka_steering
    -- HUD icons
    let is_lfahda_msg := decide (addr = 0x1e0) && !g.hyundai_canfd_lka_steering
    -- SCC_CONTROL for camera SCC cars, we send our own longitudinal commands
    let is_scc_msg :=
      decide (addr = 0x1a0) && g.hyundai_longitudinal && !g.hyundai_canfd_lka_steering
    let block_msg := is_lka_msg || is_lfa_msg || is_lfahda_msg || is_scc_msg
    if !block_msg then 0 else bus_fwd
  else bus_fwd

/-! ## Configuration selector -/

/-- One entry of a transmit allow-list: address, bus, length. -/
structure CanMsg where
  addr : Int
  bus : Int
  len : Nat
deriving DecidableEq, Repr

/-- One message slot of an inbound address check, with the fields the macros
of this file initialise. -/
structure CanMsgCheck where
  addr : Int
  bus : Int
  len : Nat
  check_checksum : Bool
  max_counter : Nat
  frequency : Nat
deriving DecidableEq, Repr

/-- An inbound address check: up to three alternative messages. -/
structure RxCheck where
  msg : List CanMsgCheck
deriving DecidableEq, Repr

/-- The zero-initialised slot written as `{ 0 }` in the macros. -/
def CanMsgCheck.zero : CanMsgCheck :=
  { addr := 0, bus := 0, len := 0, check_checksum := false, max_counter := 0, frequency := 0 }

/-- The value built by `BUILD_SAFETY_CFG`: the two tables (their lengths are
the lengths of the lists). -/
structure safety_config where
  rx_checks : List RxCheck
  tx_msgs : List CanMsg
deriving DecidableEq, Repr

/-- `BUILD_SAFETY_CFG(rx, tx)`. -/
def BUILD_SAFETY_CFG (rx : List RxCheck) (tx : List CanMsg) : safety_config :=
  { rx_checks := rx, tx_msgs := tx }

/-- Macro `HYUNDAI_CANFD_COMMON_RX_CHECKS(pt_bus)`. -/
def HYUNDAI_CANFD_COMMON_RX_CHECKS (pt_bus : Int) : List RxCheck :=
  [ { msg := [ { addr := 0x35, bus := pt_bus, len := 32, check_checksum := true,
                 max_counter := 0xff, frequency := 100 },
               { addr := 0x100, bus := pt_bus, len := 32, check_checksum := true,
                 max_counter := 0xff, frequency := 100 },
               { addr := 0x105, bus := pt_bus, len := 32, check_checksum := true,
                 max_counter := 0xff, frequency := 100 } ] },
    { msg := [ { addr := 0x175, bus := pt_bus, len := 24, check_checksum := true,
                 max_counter := 0xff, frequency := 50 }, CanMsgCheck.zero, CanMsgCheck.zero ] },
    { msg := [ { addr := 0xa0, bus := pt_bus, len := 24, check_checksum := true,
                 max_counter := 0xff, frequency := 100 }, CanMsgCheck.zero, CanMsgCheck.zero ] },
    { msg := [ { addr := 0xea, bus := pt_bus, len := 24, check_checksum := true,
                 max_counter := 0xff, frequency := 100 }, CanMsgCheck.zero, CanMsgCheck.zero ] },
    { msg := [ { addr := 0x1cf, bus := pt_bus, len := 8, check_checksum := false,
                 max_counter := 0xf, frequency := 50 },
               { addr := 0x1aa, bus := pt_bus, len := 16, check_checksum := false,
                 max_counter := 0xff, frequency := 50 }, CanMsgCheck.zero ] },
    { msg := [ { addr := 0x125, bus := pt_bus, len := 16, check_checksum := true,
                 max_counter := 0xff, frequency := 100 }, CanMsgCheck.zero, CanMsgCheck.zero ] } ]

/-- Macro `HYUNDAI_CANFD_SCC_ADDR_CHECK(scc_bus)`: SCC_CONTROL (from ADAS
unit or camera). -/
def HYUNDAI_CANFD_SCC_ADDR_CHECK (scc_bus : Int) : List RxCheck :=
  [ { msg := [ { addr := 0x1a0, bus := scc_bus, len := 32, check_checksum := true,
                 max_counter := 0xff, frequency := 50 }, CanMsgCheck.zero, CanMsgCheck.zero ] } ]

def HYUNDAI_PARAM_CANFD_LKA_STEERING_ALT : Nat := 128
def HYUNDAI_PARAM_CANFD_ALT_BUTTONS : Nat := 32
def HYUNDAI_PARAM_CANFD_ANGLE_STEERING : Nat := 256

def HYUNDAI_CANFD_LKA_STEERING_TX_MSGS : List CanMsg :=
  [ ⟨0x50, 0, 16⟩,   -- LKAS
    ⟨0x1CF, 1, 8⟩,   -- CRUISE_BUTTON
    ⟨0x2A4, 0, 24⟩ ] -- CAM_0x2A4

def HYUNDAI_CANFD_LKA_STEERING_ALT_TX_MSGS : List CanMsg :=
  [ ⟨0x110, 0, 32⟩,  -- LKAS_ALT
    ⟨0x1CF, 1, 8⟩,   -- CRUISE_BUTTON
    ⟨0x362, 0, 32⟩ ] -- CAM_0x362

def HYUNDAI_CANFD_LKA_STEERING_LONG_TX_MSGS : List CanMsg :=
  [ ⟨0x50, 0, 16⟩,   -- LKAS
    ⟨0x1CF, 1, 8⟩,   -- CRUISE_BUTTON
    ⟨0x2A4, 0, 24⟩,  -- CAM_0x2A4
    ⟨0x51, 0, 32⟩,   -- ADRV_0x51
    ⟨0x730, 1, 8⟩,   -- tester present for ADAS ECU disable
    ⟨0x12A, 1, 16⟩,  -- LFA
    ⟨0x160, 1, 16⟩,  -- ADRV_0x160
    ⟨0x1E0, 1, 16⟩,  -- LFAHDA_CLUSTER
    ⟨0x1A0, 1, 32⟩,  -- CRUISE_INFO
    ⟨0x1EA, 1, 32⟩,  -- ADRV_0x1ea
    ⟨0x200, 1, 8⟩,   -- ADRV_0x200
    ⟨0x345, 1, 8⟩,   -- ADRV_0x345
    ⟨0x1DA, 1, 32⟩ ] -- ADRV_0x1da

def HYUNDAI_CANFD_LFA_STEERING_TX_MSGS : List CanMsg :=
  [ ⟨0x12A, 0, 16⟩,  -- LFA
    ⟨0x1A0, 0, 32⟩,  -- CRUISE_INFO
    ⟨0x1CF, 2, 8⟩,   -- CRUISE_BUTTON
    ⟨0x1E0, 0, 16⟩ ] -- LFAHDA_CLUSTER

def hyundai_canfd_lka_steering_long_rx_checks : List RxCheck :=
  HYUNDAI_CANFD_COMMON_RX_CHECKS 1

def hyundai_canfd_long_rx_checks : List RxCheck :=
  HYUNDAI_CANFD_COMMON_RX_CHECKS 0

def hyundai_canfd_lka_steering_rx_checks : List RxCheck :=
  HYUNDAI_CANFD_COMMON_RX_CHECKS 1 ++ HYUNDAI_CANFD_SCC_ADDR_CHECK 1

def hyundai_canfd_radar_scc_rx_checks : List RxCheck :=
  HYUNDAI_CANFD_COMMON_RX_CHECKS 0 ++ HYUNDAI_CANFD_SCC_ADDR_CHECK 0

def hyundai_canfd_rx_checks : List RxCheck :=
  HYUNDAI_CANFD_COMMON_RX_CHECKS 0 ++ HYUNDAI_CANFD_SCC_ADDR_CHECK 2

/-- The flag updates of `hyundai_canfd_init`, up to and including the
longitudinal override; `param` is a `uint16_t`. -/
def init_globals (c : HyundaiCommon) (param : Nat) (g : Globals) : Globals :=
  let param := param % 2 ^ 16
  let g := c.hyundai_common_init param g
  let g := { g with hyundai_canfd_crc_lut := c.gen_crc_lookup_table_16 0x1021 }
  let g := { g with hyundai_canfd_alt_buttons := GET_FLAG param HYUNDAI_PARAM_CANFD_ALT_BUTTONS }
  let g := { g with
    hyundai_canfd_lka_steering_alt := GET_FLAG param HYUNDAI_PARAM_CANFD_LKA_STEERING_ALT }
  let g := { g with
    hyundai_canfd_angle_steering := GET_FLAG param HYUNDAI_PARAM_CANFD_ANGLE_STEERING }
  -- no long for radar-SCC with LFA steering yet
  if !g.hyundai_canfd_lka_steering && !g.hyundai_camera_scc then
    { g with hyundai_longitudinal := false }
  else g

/-- The selection of the returned `safety_config` in `hyundai_canfd_init`. -/
def init_select (g : Globals) : safety_config :=
  if g.hyundai_longitudinal then
    if g.hyundai_canfd_lka_steering then
      BUILD_SAFETY_CFG hyundai_canfd_lka_steering_long_rx_checks
        HYUNDAI_CANFD_LKA_STEERING_LONG_TX_MSGS
    else
      -- Longitudinal checks for LFA steering
      BUILD_SAFETY_CFG hyundai_canfd_long_rx_checks HYUNDAI_CANFD_LFA_STEERING_TX_MSGS
  else
    if g.hyundai_canfd_lka_steering then
      -- E-CAN is on bus 1, SCC messages are sent on cars with ADRV ECU.
      -- Does not use the alt buttons message
      if g.hyundai_canfd_lka_steering_alt then
        BUILD_SAFETY_CFG hyundai_canfd_lka_steering_rx_checks
          HYUNDAI_CANFD_LKA_STEERING_ALT_TX_MSGS
      else
        BUILD_SAFETY_CFG hyundai_canfd_lka_steering_rx_checks
          HYUNDAI_CANFD_LKA_STEERING_TX_MSGS
    else if !g.hyundai_camera_scc then
      -- Radar sends SCC messages on these cars instead of camera
      BUILD_SAFETY_CFG hyundai_canfd_radar_scc_rx_checks HYUNDAI_CANFD_LFA_STEERING_TX_MSGS
    else
      -- Camera sends SCC messages on LFA steering cars.
      BUILD_SAFETY_CFG hyundai_canfd_rx_checks HYUNDAI_CANFD_LFA_STEERING_TX_MSGS

/-- `hyundai_canfd_init`: the returned configuration and the globals it
leaves behind. -/
def hyundai_canfd_init (c : HyundaiCommon) (param : Nat) (g : Globals) :
    safety_config × Globals :=
  let g := init_globals c param g
  (init_select g, g)

/-! ## Observations and sample instances -/

/-- The booleans passed to `generic_rx_checks` in a list of rx calls. -/
def generic_rx_checks_args : List RxCall → List Bool
  | [] => []
  | RxCall.generic_rx_checks b :: t => b :: generic_rx_checks_args t
  | _ :: t => generic_rx_checks_args t

/-- The sample carried by an `update_sample(&angle_meas, _)` call. -/
def RxCall.angle_meas_sample : RxCall → Option Int
  | RxCall.update_sample_angle_meas v => some v
  | _ => none

/-- The samples pushed into the measured-angle tracker by a list of rx calls. -/
def angle_meas_samples (l : List RxCall) : List Int := l.filterMap RxCall.angle_meas_sample

/-- The sample carried by an `update_sample(&torque_driver, _)` call. -/
def RxCall.torque_driver_sample : RxCall → Option Int
  | RxCall.update_sample_torque_driver v => some v
  | _ => none

/-- The samples pushed into the driver-torque tracker by a list of rx calls. -/
def torque_driver_samples (l : List RxCall) : List Int :=
  l.filterMap RxCall.torque_driver_sample

/-- The argument of a `hyundai_common_cruise_state_check` call. -/
def RxCall.cruise_state_arg : RxCall → Option Bool
  | RxCall.hyundai_common_cruise_state_check v => some v
  | _ => none

/-- The booleans forwarded to the cruise-state tracker by a list of rx calls. -/
def cruise_state_check_args (l : List RxCall) : List Bool := l.filterMap RxCall.cruise_state_arg

/-- A sample instance of the external constants: button codes 1 (resume) and
4 (cancel), a standstill threshold of 12, flags read from the low parameter
bits (the hybrid flag only when the EV flag is clear), and an empty CRC table.  Used to evaluate the hooks on concrete
inputs. -/
def sampleCommon : HyundaiCommon :=
  { HYUNDAI_BTN_RESUME := 1
    HYUNDAI_BTN_CANCEL := 4
    HYUNDAI_STANDSTILL_THRSLD := 12
    hyundai_common_init := fun param g =>
      { g with
        hyundai_ev_gas_signal := GET_FLAG param 1
        hyundai_hybrid_gas_signal := !GET_FLAG param 1 && GET_FLAG param 2
        hyundai_longitudinal := GET_FLAG param 4
        hyundai_camera_scc := GET_FLAG param 8
        hyundai_canfd_lka_steering := GET_FLAG param 16 }
    gen_crc_lookup_table_16 := fun _ => [] }

/-- A sample instance of the limiters, without history: a steering command
violates when its magnitude exceeds `max_steer`, an acceleration command when
its magnitude exceeds the sample bound. -/
def sampleLimiters : Limiters Unit :=
  { LongitudinalLimits := Int
    HYUNDAI_LONG_LIMITS := 200
    steer_torque_cmd_checks := fun s t _ lim =>
      (decide (t > lim.max_steer ∨ t < -lim.max_steer), s)
    steer_angle_cmd_checks := fun s a _ lim =>
      (decide (a > lim.max_steer ∨ a < -lim.max_steer), s)
    longitudinal_accel_checks := fun s a lim => (decide (a > lim ∨ a < -lim), s) }

/-- All flags clear, no CRC table. -/
def sampleGlobals : Globals :=
  { hyundai_canfd_alt_buttons := false
    hyundai_canfd_lka_steering_alt := false
    hyundai_canfd_angle_steering := false
    hyundai_longitudinal := false
    hyundai_camera_scc := false
    hyundai_canfd_lka_steering := false
    hyundai_ev_gas_signal := false
    hyundai_hybrid_gas_signal := false
    hyundai_canfd_crc_lut := [] }

/-- Sample trackers: controls allowed, cruise engaged on the previous cycle. -/
def sampleTrackers : Trackers Unit :=
  { controls_allowed := true, cruise_engaged_prev := true, core := () }

/-! ## Auxiliary lemmas -/

theorem GET_BYTE_lt (p : CANPacket_t) (i : Nat) : GET_BYTE p i < 256 := by
  unfold GET_BYTE
  exact Nat.mod_lt _ (by norm_num)

theorem shl_or_eq_add (a b k : Nat) (h : b < 2 ^ k) : (a <<< k) ||| b = a * 2 ^ k + b := by
  rw [Nat.shiftLeft_eq, Nat.mul_comm, ← Nat.mul_add_lt_is_or h]

theorem or_shl_eq_add (a b k : Nat) (h : b < 2 ^ k) : b ||| (a <<< k) = a * 2 ^ k + b := by
  rw [Nat.or_comm, shl_or_eq_add a b k h]

theorem and_7_eq_mod (x : Nat) : x &&& 7 = x % 8 :=
  Nat.and_pow_two_sub_one_eq_mod x 3

theorem and_15_eq_mod (x : Nat) : x &&& 15 = x % 16 :=
  Nat.and_pow_two_sub_one_eq_mod x 4

theorem and_63_eq_mod (x : Nat) : x &&& 63 = x % 64 :=
  Nat.and_pow_two_sub_one_eq_mod x 6

theorem and_3_eq_mod (x : Nat) : x &&& 3 = x % 4 :=
  Nat.and_pow_two_sub_one_eq_mod x 2

theorem u32_to_int_sub (x k : Nat) (hx : x < 2 ^ 31) (hk : k < 2 ^ 31) :
    u32_to_int (u32_sub x k) = (x : Int) - (k : Int) := by
  unfold u32_to_int u32_sub
  norm_num at hx hk ⊢
  split_ifs with h <;> omega

theorem tx_steer_addr_cases (g : Globals) :
    tx_steer_addr g = 0x50 ∨ tx_steer_addr g = 0x110 ∨ tx_steer_addr g = 0x12a := by
  unfold tx_steer_addr hyundai_canfd_get_lka_addr
  split_ifs <;> simp

theorem tx_desired_accel_raw_eq (p : CANPacket_t) :
    tx_desired_accel_raw p = ((GET_BYTE p 17 % 8 * 256 + GET_BYTE p 16 : Nat) : Int) - 1023 := by
  have h16 := GET_BYTE_lt p 16
  have h17 := GET_BYTE_lt p 17
  unfold tx_desired_accel_raw
  rw [and_7_eq_mod, shl_or_eq_add _ _ 8 (by norm_num; exact h16), u32_to_int_sub _ _ (by norm_num; omega) (by norm_num)]
  norm_num

theorem tx_desired_accel_val_eq (p : CANPacket_t) :
    tx_desired_accel_val p = ((GET_BYTE p 18 * 16 + GET_BYTE p 17 / 16 : Nat) : Int) - 1023 := by
  have h18 := GET_BYTE_lt p 18
  have h17 := GET_BYTE_lt p 17
  unfold tx_desired_accel_val
  rw [Nat.shiftRight_eq_div_pow, shl_or_eq_add _ _ 4 (by norm_num; omega),
    u32_to_int_sub _ _ (by norm_num; omega) (by norm_num)]
  norm_num

theorem GET_BYTES_four (p : CANPacket_t) (start : Nat) :
    GET_BYTES p start 4 = GET_BYTE p start + 256 * GET_BYTE p (start + 1)
      + 65536 * GET_BYTE p (start + 2) + 16777216 * GET_BYTE p (start + 3) := by
  have h0 := GET_BYTE_lt p start
  have h1 := GET_BYTE_lt p (start + 1)
  have h2 := GET_BYTE_lt p (start + 2)
  have h3 := GET_BYTE_lt p (start + 3)
  simp only [GET_BYTES, Nat.zero_or, Nat.mul_zero, Nat.shiftLeft_zero, Nat.add_zero]
  rw [or_shl_eq_add _ _ 8 (by norm_num; exact h0),
    or_shl_eq_add _ _ 16 (by norm_num; omega),
    or_shl_eq_add _ _ 24 (by norm_num; omega)]
  norm_num
  omega

theorem tx_desired_torque_eq (p : CANPacket_t) :
    tx_desired_torque p = ((GET_BYTE p 6 % 16 * 128 + GET_BYTE p 5 / 2 : Nat) : Int) - 1024 := by
  have h5 := GET_BYTE_lt p 5
  unfold tx_desired_torque
  rw [and_15_eq_mod, Nat.shiftRight_eq_div_pow, shl_or_eq_add _ _ 7 (by norm_num; omega),
    u32_to_int_sub _ _ (by norm_num; omega) (by norm_num)]
  norm_num

theorem tx_desired_angle_eq (p : CANPacket_t) :
    tx_desired_angle p =
      -10 * to_signed (((GET_BYTE p 10 % 64 * 256 + GET_BYTE p 11 : Nat) : Int)) 14 := by
  have h11 := GET_BYTE_lt p 11
  have e : (2 : Nat) ^ 8 = 256 := by norm_num
  unfold tx_desired_angle
  rw [and_63_eq_mod, shl_or_eq_add _ _ 8 (by norm_num; exact h11), e]
  simp only [HYUNDAI_CANFD_STEERING_LIMITS]
  ring

theorem tx_steer_angle_req_eq (p : CANPacket_t) :
    tx_steer_angle_req p = decide (GET_BYTE p 9 / 32 % 4 = 2) := by
  unfold tx_steer_angle_req
  rw [and_3_eq_mod, Nat.shiftRight_eq_div_pow]
  have e : (2 : Nat) ^ 5 = 32 := by norm_num
  rw [e]
  by_cases h : GET_BYTE p 9 / 32 % 4 = 2 <;> simp [h]

theorem tx_steer_req_eq (p : CANPacket_t) :
    tx_steer_req p = decide (GET_BYTE p 6 / 16 % 2 = 1) := by
  unfold tx_steer_req GET_BIT
  rw [Nat.and_one_is_mod, Nat.shiftRight_eq_div_pow]
  have h : GET_BYTE p (52 / 8) / 2 ^ (52 % 8) % 2 = GET_BYTE p 6 / 16 % 2 := by norm_num
  rw [h]
  rcases Nat.mod_two_eq_zero_or_one (GET_BYTE p 6 / 16) with h0 | h1
  · simp [h0]
  · simp [h1]

theorem tx_steering_other {σ : Type} (L : Limiters σ) (g : Globals) (p : CANPacket_t)
    (st : Bool × Trackers σ) (h : GET_ADDR p ≠ tx_steer_addr g) : tx_steering L g p st = st := by
  unfold tx_steering
  rw [if_neg h]

theorem tx_buttons_other {σ : Type} (c : HyundaiCommon) (p : CANPacket_t)
    (st : Bool × Trackers σ) (h : GET_ADDR p ≠ 0x1cf) : tx_buttons c p st = st := by
  unfold tx_buttons
  rw [if_neg h]

theorem tx_uds_other {σ : Type} (g : Globals) (p : CANPacket_t) (st : Bool × Trackers σ)
    (h : ¬ (GET_ADDR p = 0x730 ∧ g.hyundai_canfd_lka_steering = true)) : tx_uds g p st = st := by
  unfold tx_uds
  rw [if_neg h]

theorem tx_uds_other_addr {σ : Type} (g : Globals) (p : CANPacket_t) (st : Bool × Trackers σ)
    (h : GET_ADDR p ≠ 0x730) : tx_uds g p st = st :=
  tx_uds_other g p st (fun hh => h hh.1)

theorem tx_accel_other {σ : Type} (L : Limiters σ) (g : Globals) (p : CANPacket_t)
    (st : Bool × Trackers σ) (h : GET_ADDR p ≠ 0x1a0) : tx_accel L g p st = st := by
  unfold tx_accel
  rw [if_neg h]

theorem tx_steer_addr_eq (g : Globals) :
    tx_steer_addr g =
      (if g.hyundai_canfd_lka_steering = true ∧ g.hyundai_longitudinal = false then
        (if g.hyundai_canfd_lka_steering_alt = true then 0x110 else 0x50)
      else 0x12a) := by
  unfold tx_steer_addr hyundai_canfd_get_lka_addr
  cases g.hyundai_canfd_lka_steering <;> cases g.hyundai_longitudinal <;> rfl

theorem generic_rx_checks_args_append (xs ys : List RxCall) :
    generic_rx_checks_args (xs ++ ys) = generic_rx_checks_args xs ++ generic_rx_checks_args ys := by
  induction xs with
  | nil => rfl
  | cons x t ih =>
    cases x <;> simp [generic_rx_checks_args, ih]

theorem generic_rx_checks_args_pt_bus (c : HyundaiCommon) (g : Globals) (p : CANPacket_t) :
    generic_rx_checks_args (rx_pt_bus c g p) = [] := by
  unfold rx_pt_bus
  simp only [generic_rx_checks_args_append]
  split_ifs <;> simp [generic_rx_checks_args]

theorem generic_rx_checks_args_scc_bus (g : Globals) (p : CANPacket_t) :
    generic_rx_checks_args (rx_scc_bus g p) = [] := by
  unfold rx_scc_bus
  dsimp only
  split_ifs <;> simp [generic_rx_checks_args]

theorem generic_rx_checks_args_rx_hook (c : HyundaiCommon) (g : Globals) (p : CANPacket_t) :
    generic_rx_checks_args (hyundai_canfd_rx_hook c g p) = [rx_stock_ecu_detected g p] := by
  unfold hyundai_canfd_rx_hook
  simp only [generic_rx_checks_args_append]
  split_ifs <;>
    simp [generic_rx_checks_args, generic_rx_checks_args_pt_bus, generic_rx_checks_args_scc_bus]

theorem rx_stock_ecu_detected_eq (g : Globals) (p : CANPacket_t) :
    rx_stock_ecu_detected g p =
      decide ((GET_ADDR p =
          (if g.hyundai_canfd_lka_steering = true then
            (if g.hyundai_canfd_lka_steering_alt = true then 0x110 else 0x50)
          else 0x12a) ∧ GET_BUS p = 0) ∨
        (g.hyundai_longitudinal = true ∧ GET_ADDR p = 0x1a0 ∧
          GET_BUS p = (if g.hyundai_canfd_lka_steering = true then 1 else 0))) := by
  unfold rx_stock_ecu_detected rx_steer_addr hyundai_canfd_get_lka_addr
  cases g.hyundai_canfd_lka_steering <;> cases g.hyundai_longitudinal <;>
    cases g.hyundai_canfd_lka_steering_alt <;> simp [Bool.decide_and, Bool.decide_or]

theorem GET_FLAG_two_pow (x i : Nat) : GET_FLAG x (2 ^ i) = x.testBit i := by
  unfold GET_FLAG
  by_cases h : x.testBit i = true
  · rw [h]
    simp only [beq_iff_eq]
    apply Nat.eq_of_testBit_eq
    intro j
    rw [Nat.testBit_and, Nat.testBit_two_pow]
    by_cases hj : i = j
    · subst hj
      simp [h]
    · simp [hj]
  · have hf : x.testBit i = false := by simpa using h
    rw [hf]
    by_contra hne
    have he : x &&& 2 ^ i = 2 ^ i := by simpa using hne
    have ht := congrArg (fun y => Nat.testBit y i) he
    simp [Nat.testBit_two_pow, hf] at ht

theorem GET_FLAG_param_bit (param i : Nat) (hi : i < 16) :
    GET_FLAG (param % 2 ^ 16) (2 ^ i) = decide (param / 2 ^ i % 2 = 1) := by
  rw [GET_FLAG_two_pow, Nat.testBit_mod_two_pow, ← Nat.testBit_to_div_mod]
  simp [hi]

theorem init_globals_lka_steering (c : HyundaiCommon) (param : Nat) (g : Globals) :
    (init_globals c param g).hyundai_canfd_lka_steering =
      (c.hyundai_common_init (param % 2 ^ 16) g).hyundai_canfd_lka_steering := by
  unfold init_globals
  dsimp only
  split_ifs <;> rfl

theorem init_globals_camera_scc (c : HyundaiCommon) (param : Nat) (g : Globals) :
    (init_globals c param g).hyundai_camera_scc =
      (c.hyundai_common_init (param % 2 ^ 16) g).hyundai_camera_scc := by
  unfold init_globals
  dsimp only
  split_ifs <;> rfl

theorem init_globals_longitudinal (c : HyundaiCommon) (param : Nat) (g : Globals) :
    (init_globals c param g).hyundai_longitudinal =
      ((c.hyundai_common_init (param % 2 ^ 16) g).hyundai_longitudinal &&
        ((c.hyundai_common_init (param % 2 ^ 16) g).hyundai_canfd_lka_steering ||
          (c.hyundai_common_init (param % 2 ^ 16) g).hyundai_camera_scc)) := by
  unfold init_globals
  dsimp only
  cases (c.hyundai_common_init (param % 2 ^ 16) g).hyundai_canfd_lka_steering <;>
    cases (c.hyundai_common_init (param % 2 ^ 16) g).hyundai_camera_scc <;>
    cases (c.hyundai_common_init (param % 2 ^ 16) g).hyundai_longitudinal <;> rfl

theorem rx_button_addr_ne (g : Globals) (a : Int) (h1 : a ≠ 0x1aa) (h2 : a ≠ 0x1cf) :
    ¬ (a = if g.hyundai_canfd_alt_buttons = true then 0x1aa else 0x1cf) := by
  cases g.hyundai_canfd_alt_buttons
  · simpa using h2
  · simpa using h1

theorem rx_pt_bus_angle (c : HyundaiCommon) (g : Globals) (p : CANPacket_t)
    (haddr : GET_ADDR p = 0x125) :
    rx_pt_bus c g p = [RxCall.update_sample_angle_meas
      (to_signed (((GET_BYTE p 3 * 256 + GET_BYTE p 4 : Nat) : Int)) 16 * (-10))] := by
  have h4 := GET_BYTE_lt p 4
  have e : ((GET_BYTE p 3) <<< 8) ||| GET_BYTE p 4 = GET_BYTE p 3 * 256 + GET_BYTE p 4 := by
    rw [shl_or_eq_add _ _ 8 (by norm_num; exact h4)]
    norm_num
  have hb := rx_button_addr_ne g 0x125 (by decide) (by decide)
  unfold rx_pt_bus
  simp only [haddr, e]
  rw [if_neg hb]
  simp

theorem rx_pt_bus_torque (c : HyundaiCommon) (g : Globals) (p : CANPacket_t)
    (haddr : GET_ADDR p = 0xea) :
    rx_pt_bus c g p = [RxCall.update_sample_torque_driver
      (((GET_BYTE p 11 % 32 * 256 + GET_BYTE p 10 : Nat) : Int) - 4095)] := by
  have h10 := GET_BYTE_lt p 10
  have e : (((GET_BYTE p 11) &&& 0x1f) <<< 8) ||| GET_BYTE p 10
      = GET_BYTE p 11 % 32 * 256 + GET_BYTE p 10 := by
    rw [Nat.and_pow_two_sub_one_eq_mod _ 5, shl_or_eq_add _ _ 8 (by norm_num; exact h10)]
    norm_num
  have hb := rx_button_addr_ne g 0xea (by decide) (by decide)
  unfold rx_pt_bus
  simp only [haddr, e]
  rw [if_neg hb]
  simp

theorem rx_scc_bus_other (g : Globals) (p : CANPacket_t) (h : GET_ADDR p ≠ 0x1a0) :
    rx_scc_bus g p = [] := by
  unfold rx_scc_bus
  dsimp only
  rw [if_neg (fun hh => h hh.1)]

theorem rx_hook_on_pt_bus (c : HyundaiCommon) (g : Globals) (p : CANPacket_t)
    (hbus : GET_BUS p = rx_pt_bus_num g) (h : GET_ADDR p ≠ 0x1a0) :
    hyundai_canfd_rx_hook c g p =
      rx_pt_bus c g p ++ [RxCall.generic_rx_checks (rx_stock_ecu_detected g p)] := by
  unfold hyundai_canfd_rx_hook
  dsimp only
  rw [if_pos hbus, rx_scc_bus_other g p h]
  simp

theorem cruise_state_check_args_pt_bus (c : HyundaiCommon) (g : Globals) (p : CANPacket_t) :
    cruise_state_check_args (rx_pt_bus c g p) = [] := by
  unfold rx_pt_bus cruise_state_check_args
  simp only [List.filterMap_append, apply_ite (List.filterMap RxCall.cruise_state_arg),
    List.filterMap_cons, List.filterMap_nil, RxCall.cruise_state_arg, ite_self,
    List.append_nil, List.nil_append]

theorem cruise_state_check_args_scc_bus (g : Globals) (p : CANPacket_t) :
    cruise_state_check_args (rx_scc_bus g p) =
      (if GET_ADDR p = 0x1a0 ∧ g.hyundai_longitudinal = false then
        [decide (GET_BYTE p 8 / 16 % 8 = 1 ∨ GET_BYTE p 8 / 16 % 8 = 2)]
      else []) := by
  have e : ((GET_BYTE p 8) >>> 4) &&& 0x7 = GET_BYTE p 8 / 16 % 8 := by
    rw [and_7_eq_mod, Nat.shiftRight_eq_div_pow]
  unfold rx_scc_bus cruise_state_check_args
  simp only [e]
  split_ifs with h
  · have hc1 : (((GET_BYTE p 8 / 16 % 8 : Nat) : Int) = 1) ↔ (GET_BYTE p 8 / 16 % 8 = 1) := by
      omega
    have hc2 : (((GET_BYTE p 8 / 16 % 8 : Nat) : Int) = 2) ↔ (GET_BYTE p 8 / 16 % 8 = 2) := by
      omega
    simp only [List.filterMap_cons, RxCall.cruise_state_arg, List.filterMap_nil, hc1, hc2,
      Bool.decide_or]
  · rfl

theorem fwd_hook_blocked_in_tx_msgs (g : Globals)
    (hcfg : ¬ (g.hyundai_longitudinal = true ∧ g.hyundai_canfd_lka_steering = true ∧
      g.hyundai_canfd_lka_steering_alt = true))
    (addr : Int) (hblk : hyundai_canfd_fwd_hook g 2 addr = -1) :
    ∃ m ∈ (init_select g).tx_msgs, m.addr = addr ∧ m.bus = 0 := by
  unfold hyundai_canfd_fwd_hook hyundai_canfd_get_lka_addr at hblk
  unfold init_select
  cases hl : g.hyundai_longitudinal <;> cases hk : g.hyundai_canfd_lka_steering <;>
    cases ha : g.hyundai_canfd_lka_steering_alt <;> cases hc : g.hyundai_camera_scc <;>
    simp only [hl, hk, ha, hc] at hblk hcfg ⊢ <;>
    simp at hblk hcfg ⊢ <;>
    simp [BUILD_SAFETY_CFG, HYUNDAI_CANFD_LFA_STEERING_TX_MSGS,
      HYUNDAI_CANFD_LKA_STEERING_TX_MSGS, HYUNDAI_CANFD_LKA_STEERING_ALT_TX_MSGS,
      HYUNDAI_CANFD_LKA_STEERING_LONG_TX_MSGS] <;>
    omega


theorem init_select_rx_buses (g : Globals) :
    (∀ chk ∈ (init_select g).rx_checks, ∀ m ∈ chk.msg,
      m.addr ≠ 0 → m.addr ≠ 0x1a0 → m.bus = rx_pt_bus_num g) ∧
    (g.hyundai_longitudinal = false →
      ¬ (g.hyundai_canfd_lka_steering = true ∧ g.hyundai_camera_scc = true) →
      (∃ chk ∈ (init_select g).rx_checks, ∃ m ∈ chk.msg, m.addr = 0x1a0) ∧
      (∀ chk ∈ (init_select g).rx_checks, ∀ m ∈ chk.msg,
        m.addr = 0x1a0 → m.bus = rx_scc_bus_num g)) := by
  unfold init_select rx_scc_bus_num rx_pt_bus_num
  cases g.hyundai_longitudinal <;> cases g.hyundai_canfd_lka_steering <;>
    cases g.hyundai_canfd_lka_steering_alt <;> cases g.hyundai_camera_scc <;> decide

theorem tx_hook_at_steer_addr {σ : Type} (c : HyundaiCommon) (L : Limiters σ) (g : Globals)
    (s : Trackers σ) (p : CANPacket_t) (hs : GET_ADDR p = tx_steer_addr g) :
    ((hyundai_canfd_tx_hook c L g s p).1 = false ↔
      (if g.hyundai_canfd_angle_steering = true then
        (L.steer_angle_cmd_checks s (tx_desired_angle p) (tx_steer_angle_req p)
          HYUNDAI_CANFD_STEERING_LIMITS).1
      else
        (L.steer_torque_cmd_checks s (tx_desired_torque p) (tx_steer_req p)
          HYUNDAI_CANFD_STEERING_LIMITS).1) = true) := by
  have hne : GET_ADDR p ≠ 0x1cf ∧ GET_ADDR p ≠ 0x730 ∧ GET_ADDR p ≠ 0x1a0 := by
    rcases tx_steer_addr_cases g with h | h | h <;> rw [hs, h] <;> decide
  unfold hyundai_canfd_tx_hook
  rw [tx_accel_other L g p _ hne.2.2, tx_uds_other_addr g p _ hne.2.1,
    tx_buttons_other c p _ hne.1]
  unfold tx_steering
  rw [if_pos hs]
  cases g.hyundai_canfd_angle_steering
  · simp only [Bool.false_eq_true, if_false]
    cases (L.steer_torque_cmd_checks s (tx_desired_torque p) (tx_steer_req p)
      HYUNDAI_CANFD_STEERING_LIMITS).1 <;> simp
  · simp only [if_true]
    cases (L.steer_angle_cmd_checks s (tx_desired_angle p) (tx_steer_angle_req p)
      HYUNDAI_CANFD_STEERING_LIMITS).1 <;> simp

theorem init_select_steer_addr (g : Globals) :
    (∃ m ∈ (init_select g).tx_msgs, m.addr = tx_steer_addr g) ∧
    (¬ (g.hyundai_canfd_lka_steering = true ∧ g.hyundai_longitudinal = true) →
      ∀ m ∈ (init_select g).tx_msgs,
        (m.addr = 0x50 ∨ m.addr = 0x110 ∨ m.addr = 0x12a) → m.addr = tx_steer_addr g) := by
  unfold init_select tx_steer_addr hyundai_canfd_get_lka_addr
  cases g.hyundai_longitudinal <;> cases g.hyundai_canfd_lka_steering <;>
    cases g.hyundai_canfd_lka_steering_alt <;> cases g.hyundai_camera_scc <;> decide

/-! ## Outbound validator: theorems -/

/-- C1. For every outbound frame at the cruise-button address 0x1cf and every
tracker state, the tx hook allows the frame exactly when the 3-bit button
code (byte 2 modulo 8) is CANCEL and `cruise_engaged_prev` holds, or the code
is RESUME and `controls_allowed` holds; a code that is neither CANCEL nor
RESUME is denied whatever the trackers are. -/
theorem tx_hook_cruise_buttons {σ : Type} (c : HyundaiCommon) (L : Limiters σ) (g : Globals)
    (s : Trackers σ) (p : CANPacket_t) (haddr : GET_ADDR p = 0x1cf) :
    ((hyundai_canfd_tx_hook c L g s p).1 = true ↔
      ((((GET_BYTE p 2 % 8 : Nat) : Int) = c.HYUNDAI_BTN_CANCEL ∧ s.cruise_engaged_prev = true) ∨
       (((GET_BYTE p 2 % 8 : Nat) : Int) = c.HYUNDAI_BTN_RESUME ∧ s.controls_allowed = true))) ∧
    ((((GET_BYTE p 2 % 8 : Nat) : Int) ≠ c.HYUNDAI_BTN_CANCEL ∧
      ((GET_BYTE p 2 % 8 : Nat) : Int) ≠ c.HYUNDAI_BTN_RESUME) →
      (hyundai_canfd_tx_hook c L g s p).1 = false) := by
  have hs : GET_ADDR p ≠ tx_steer_addr g := by
    rcases tx_steer_addr_cases g with h | h | h <;> rw [h, haddr] <;> decide
  have key : (hyundai_canfd_tx_hook c L g s p).1 =
      ((decide (((GET_BYTE p 2 % 8 : Nat) : Int) = c.HYUNDAI_BTN_CANCEL) && s.cruise_engaged_prev)
        || (decide (((GET_BYTE p 2 % 8 : Nat) : Int) = c.HYUNDAI_BTN_RESUME)
          && s.controls_allowed)) := by
    unfold hyundai_canfd_tx_hook
    rw [tx_steering_other L g p _ hs, tx_accel_other L g p _ (by rw [haddr]; decide),
      tx_uds_other_addr g p _ (by rw [haddr]; decide)]
    unfold tx_buttons
    rw [if_pos haddr, and_7_eq_mod]
    dsimp only
    cases (decide (((GET_BYTE p 2 % 8 : Nat) : Int) = c.HYUNDAI_BTN_CANCEL)
      && s.cruise_engaged_prev
      || decide (((GET_BYTE p 2 % 8 : Nat) : Int) = c.HYUNDAI_BTN_RESUME) && s.controls_allowed)
      <;> rfl
  rw [key]
  constructor
  · simp
  · rintro ⟨h1, h2⟩
    rw [decide_eq_false h1, decide_eq_false h2]
    rfl

/-- Witness for C1: a CANCEL frame (code 4) with cruise engaged on the
previous cycle is allowed. -/
theorem tx_hook_cruise_buttons_witness :
    GET_ADDR ⟨0x1cf, 1, 8, [0, 0, 4, 0, 0, 0, 0, 0]⟩ = 0x1cf ∧
    (hyundai_canfd_tx_hook sampleCommon sampleLimiters sampleGlobals sampleTrackers
      ⟨0x1cf, 1, 8, [0, 0, 4, 0, 0, 0, 0, 0]⟩).1 = true :=
  ⟨rfl, ((tx_hook_cruise_buttons sampleCommon sampleLimiters sampleGlobals sampleTrackers
      ⟨0x1cf, 1, 8, [0, 0, 4, 0, 0, 0, 0, 0]⟩ rfl).1).2 (Or.inl ⟨by decide, rfl⟩)⟩

/-- C2. With `hyundai_longitudinal` false, for every outbound frame at the
acceleration-command address 0x1a0 the tx hook allows the frame exactly when
both decoded acceleration fields, `((byte17 & 7) << 8 | byte16) - 1023` and
`((byte18 << 4) | (byte17 >> 4)) - 1023`, are zero. -/
theorem tx_hook_accel_cancel_only {σ : Type} (c : HyundaiCommon) (L : Limiters σ) (g : Globals)
    (s : Trackers σ) (p : CANPacket_t) (hlong : g.hyundai_longitudinal = false)
    (haddr : GET_ADDR p = 0x1a0) :
    ((hyundai_canfd_tx_hook c L g s p).1 = true ↔
      (((((GET_BYTE p 17 &&& 7) <<< 8) ||| GET_BYTE p 16 : Nat) : Int) - 1023 = 0 ∧
       ((((GET_BYTE p 18) <<< 4) ||| ((GET_BYTE p 17) >>> 4) : Nat) : Int) - 1023 = 0)) := by
  have hs : GET_ADDR p ≠ tx_steer_addr g := by
    rcases tx_steer_addr_cases g with h | h | h <;> rw [h, haddr] <;> decide
  have h16 := GET_BYTE_lt p 16
  have h17 := GET_BYTE_lt p 17
  have hraw := tx_desired_accel_raw_eq p
  have hval := tx_desired_accel_val_eq p
  rw [and_7_eq_mod, shl_or_eq_add _ _ 8 (by norm_num; exact h16), Nat.shiftRight_eq_div_pow,
    shl_or_eq_add _ _ 4 (by norm_num; omega)]
  have e8 : (2 : Nat) ^ 8 = 256 := by norm_num
  have e4 : (2 : Nat) ^ 4 = 16 := by norm_num
  rw [e8, e4, ← hraw, ← hval]
  unfold hyundai_canfd_tx_hook
  rw [tx_steering_other L g p _ hs, tx_buttons_other c p _ (by rw [haddr]; decide),
    tx_uds_other_addr g p _ (by rw [haddr]; decide)]
  unfold tx_accel
  rw [if_pos haddr]
  dsimp only
  rw [hlong, if_neg Bool.false_ne_true]
  by_cases h : tx_desired_accel_raw p ≠ 0 ∨ tx_desired_accel_val p ≠ 0
  · rw [if_pos h, if_pos rfl]
    constructor
    · intro hf
      exact absurd hf Bool.false_ne_true
    · rintro ⟨h1, h2⟩
      rcases h with h | h
      · exact absurd h1 h
      · exact absurd h2 h
  · rw [if_neg h, if_neg Bool.false_ne_true]
    constructor
    · intro _
      constructor
      · by_contra h1
        exact h (Or.inl h1)
      · by_contra h2
        exact h (Or.inr h2)
    · intro _
      rfl

/-- Witness for C2: the pure cancel frame (both raw fields 1023) is allowed
when longitudinal control is not owned. -/
theorem tx_hook_accel_cancel_only_witness :
    sampleGlobals.hyundai_longitudinal = false ∧
    GET_ADDR ⟨0x1a0, 0, 32, [0, 0, 0, 0, 0, 0, 0, 0, 0, 0, 0, 0, 0, 0, 0, 0, 0xff, 0xf3, 0x3f]⟩
      = 0x1a0 ∧
    (hyundai_canfd_tx_hook sampleCommon sampleLimiters sampleGlobals sampleTrackers
      ⟨0x1a0, 0, 32, [0, 0, 0, 0, 0, 0, 0, 0, 0, 0, 0, 0, 0, 0, 0, 0, 0xff, 0xf3, 0x3f]⟩).1
      = true :=
  ⟨rfl, rfl, (tx_hook_accel_cancel_only sampleCommon sampleLimiters sampleGlobals sampleTrackers
      ⟨0x1a0, 0, 32, [0, 0, 0, 0, 0, 0, 0, 0, 0, 0, 0, 0, 0, 0, 0, 0, 0xff, 0xf3, 0x3f]⟩
      rfl rfl).2 ⟨by decide, by decide⟩⟩

/-- C3. With the LKA-steering variant active, for every outbound frame at the
diagnostic address 0x730 the tx hook allows the frame exactly when its first
eight payload bytes are 02 3E 80 00 00 00 00 00. -/
theorem tx_hook_tester_present {σ : Type} (c : HyundaiCommon) (L : Limiters σ) (g : Globals)
    (s : Trackers σ) (p : CANPacket_t) (hlka : g.hyundai_canfd_lka_steering = true)
    (haddr : GET_ADDR p = 0x730) :
    ((hyundai_canfd_tx_hook c L g s p).1 = true ↔
      (GET_BYTE p 0 = 0x02 ∧ GET_BYTE p 1 = 0x3E ∧ GET_BYTE p 2 = 0x80 ∧ GET_BYTE p 3 = 0x00 ∧
       GET_BYTE p 4 = 0x00 ∧ GET_BYTE p 5 = 0x00 ∧ GET_BYTE p 6 = 0x00 ∧ GET_BYTE p 7 = 0x00)) := by
  have hs : GET_ADDR p ≠ tx_steer_addr g := by
    rcases tx_steer_addr_cases g with h | h | h <;> rw [h, haddr] <;> decide
  have h0 := GET_BYTE_lt p 0
  have h1 := GET_BYTE_lt p 1
  have h2 := GET_BYTE_lt p 2
  have h3 := GET_BYTE_lt p 3
  have h4 := GET_BYTE_lt p 4
  have h5 := GET_BYTE_lt p 5
  have h6 := GET_BYTE_lt p 6
  have h7 := GET_BYTE_lt p 7
  have e0 := GET_BYTES_four p 0
  have e4 := GET_BYTES_four p 4
  norm_num at e0 e4
  unfold hyundai_canfd_tx_hook
  rw [tx_steering_other L g p _ hs, tx_buttons_other c p _ (by rw [haddr]; decide),
    tx_accel_other L g p _ (by rw [haddr]; decide)]
  unfold tx_uds
  rw [if_pos ⟨haddr, hlka⟩, e0, e4]
  by_cases hb : (GET_BYTE p 0 + 256 * GET_BYTE p 1 + 65536 * GET_BYTE p 2
      + 16777216 * GET_BYTE p 3 ≠ 0x00803E02) ∨
      (GET_BYTE p 4 + 256 * GET_BYTE p 5 + 65536 * GET_BYTE p 6 + 16777216 * GET_BYTE p 7 ≠ 0x0)
  · rw [if_pos hb]
    simp only [Bool.false_eq_true, false_iff]
    omega
  · rw [if_neg hb]
    simp only [true_iff]
    omega

/-- Witness for C3: the tester-present frame is allowed on an LKA-steering
variant. -/
theorem tx_hook_tester_present_witness :
    ({ sampleGlobals with hyundai_canfd_lka_steering := true }).hyundai_canfd_lka_steering = true ∧
    GET_ADDR ⟨0x730, 1, 8, [0x02, 0x3E, 0x80, 0, 0, 0, 0, 0]⟩ = 0x730 ∧
    (hyundai_canfd_tx_hook sampleCommon sampleLimiters
      { sampleGlobals with hyundai_canfd_lka_steering := true } sampleTrackers
      ⟨0x730, 1, 8, [0x02, 0x3E, 0x80, 0, 0, 0, 0, 0]⟩).1 = true :=
  ⟨rfl, rfl, (tx_hook_tester_present sampleCommon sampleLimiters
      { sampleGlobals with hyundai_canfd_lka_steering := true } sampleTrackers
      ⟨0x730, 1, 8, [0x02, 0x3E, 0x80, 0, 0, 0, 0, 0]⟩ rfl rfl).2
      ⟨by decide, by decide, by decide, by decide, by decide, by decide, by decide, by decide⟩⟩

/-- C4. For every outbound frame at the steering command address of the
variant (0x50, or 0x110 with the alternate flag, when LKA-steering without
longitudinal; else 0x12a), the tx hook denies the frame exactly when the
limiter selected by the angle-steering flag reports a violation.  In torque
mode it is the torque limiter at desired torque = 11-bit field
`(byte6 % 16) * 128 + byte5 / 2` minus 1024, which lies in [-1024, 1023], and
request flag = bit 52 (bit 4 of byte 6).  In angle mode it is the angle
limiter at desired angle = -10 times the sign-extended 14-bit field
`(byte10 % 64) * 256 + byte11` and request flag = (`(byte9 >> 5) & 3` is 2). -/
theorem tx_hook_steering {σ : Type} (c : HyundaiCommon) (L : Limiters σ) (g : Globals)
    (s : Trackers σ) (p : CANPacket_t)
    (haddr : GET_ADDR p =
      (if g.hyundai_canfd_lka_steering = true ∧ g.hyundai_longitudinal = false then
        (if g.hyundai_canfd_lka_steering_alt = true then 0x110 else 0x50)
      else 0x12a)) :
    ((hyundai_canfd_tx_hook c L g s p).1 = false ↔
      (if g.hyundai_canfd_angle_steering = true then
        (L.steer_angle_cmd_checks s
          (-10 * (if ((GET_BYTE p 10 % 64 * 256 + GET_BYTE p 11 : Nat) : Int) ≥ 8192
                  then ((GET_BYTE p 10 % 64 * 256 + GET_BYTE p 11 : Nat) : Int) - 16384
                  else ((GET_BYTE p 10 % 64 * 256 + GET_BYTE p 11 : Nat) : Int)))
          (decide (GET_BYTE p 9 / 32 % 4 = 2)) HYUNDAI_CANFD_STEERING_LIMITS).1
      else
        (L.steer_torque_cmd_checks s
          (((GET_BYTE p 6 % 16 * 128 + GET_BYTE p 5 / 2 : Nat) : Int) - 1024)
          (decide (GET_BYTE p 6 / 16 % 2 = 1)) HYUNDAI_CANFD_STEERING_LIMITS).1) = true) ∧
    (-1024 ≤ ((GET_BYTE p 6 % 16 * 128 + GET_BYTE p 5 / 2 : Nat) : Int) - 1024 ∧
      ((GET_BYTE p 6 % 16 * 128 + GET_BYTE p 5 / 2 : Nat) : Int) - 1024 ≤ 1023) := by
  have hs : GET_ADDR p = tx_steer_addr g := by rw [tx_steer_addr_eq]; exact haddr
  have h5 := GET_BYTE_lt p 5
  refine ⟨?_, by omega, by omega⟩
  have hne : GET_ADDR p ≠ 0x1cf ∧ GET_ADDR p ≠ 0x730 ∧ GET_ADDR p ≠ 0x1a0 := by
    rcases tx_steer_addr_cases g with h | h | h <;> rw [hs, h] <;> decide
  have hsig : to_signed (((GET_BYTE p 10 % 64 * 256 + GET_BYTE p 11 : Nat) : Int)) 14 =
      (if ((GET_BYTE p 10 % 64 * 256 + GET_BYTE p 11 : Nat) : Int) ≥ 8192
        then ((GET_BYTE p 10 % 64 * 256 + GET_BYTE p 11 : Nat) : Int) - 16384
        else ((GET_BYTE p 10 % 64 * 256 + GET_BYTE p 11 : Nat) : Int)) := by
    unfold to_signed
    norm_num
  unfold hyundai_canfd_tx_hook
  rw [tx_accel_other L g p _ hne.2.2, tx_uds_other_addr g p _ hne.2.1,
    tx_buttons_other c p _ hne.1]
  unfold tx_steering
  rw [if_pos hs, tx_desired_angle_eq, tx_steer_angle_req_eq, tx_desired_torque_eq,
    tx_steer_req_eq, hsig]
  cases g.hyundai_canfd_angle_steering
  · simp only [Bool.false_eq_true, if_false]
    cases (L.steer_torque_cmd_checks s
      (((GET_BYTE p 6 % 16 * 128 + GET_BYTE p 5 / 2 : Nat) : Int) - 1024)
      (decide (GET_BYTE p 6 / 16 % 2 = 1)) HYUNDAI_CANFD_STEERING_LIMITS).1 <;> simp
  · simp only [if_true]
    cases (L.steer_angle_cmd_checks s
      (-10 * (if ((GET_BYTE p 10 % 64 * 256 + GET_BYTE p 11 : Nat) : Int) ≥ 8192
              then ((GET_BYTE p 10 % 64 * 256 + GET_BYTE p 11 : Nat) : Int) - 16384
              else ((GET_BYTE p 10 % 64 * 256 + GET_BYTE p 11 : Nat) : Int)))
      (decide (GET_BYTE p 9 / 32 % 4 = 2)) HYUNDAI_CANFD_STEERING_LIMITS).1 <;> simp

/-- Witness for C4: a torque frame at 0x12a carrying raw field 2047 (desired
torque 1023, above the sample bound 270) is denied. -/
theorem tx_hook_steering_witness :
    (hyundai_canfd_tx_hook sampleCommon sampleLimiters sampleGlobals sampleTrackers
      ⟨0x12a, 0, 16, [0, 0, 0, 0, 0, 0xff, 0x1f, 0]⟩).1 = false :=
  ((tx_hook_steering sampleCommon sampleLimiters sampleGlobals sampleTrackers
      ⟨0x12a, 0, 16, [0, 0, 0, 0, 0, 0xff, 0x1f, 0]⟩ rfl).1).2 (by decide)

/-- C5. For every configuration, tracker state and payload, an outbound frame
whose address is none of: the variant's steering command address, 0x1cf,
0x1a0, or 0x730 while LKA-steering is active, is allowed by the tx hook, and
the trackers are left as they were. -/
theorem tx_hook_other_address {σ : Type} (c : HyundaiCommon) (L : Limiters σ) (g : Globals)
    (s : Trackers σ) (p : CANPacket_t)
    (hsteer : GET_ADDR p ≠
      (if g.hyundai_canfd_lka_steering = true ∧ g.hyundai_longitudinal = false then
        (if g.hyundai_canfd_lka_steering_alt = true then 0x110 else 0x50)
      else 0x12a))
    (hbtn : GET_ADDR p ≠ 0x1cf) (haccel : GET_ADDR p ≠ 0x1a0)
    (huds : ¬ (GET_ADDR p = 0x730 ∧ g.hyundai_canfd_lka_steering = true)) :
    hyundai_canfd_tx_hook c L g s p = (true, s) := by
  have hs : GET_ADDR p ≠ tx_steer_addr g := by rw [tx_steer_addr_eq]; exact hsteer
  unfold hyundai_canfd_tx_hook
  rw [tx_steering_other L g p _ hs, tx_buttons_other c p _ hbtn, tx_uds_other g p _ huds,
    tx_accel_other L g p _ haccel]

/-- Witness for C5: a frame at 0x730 with arbitrary content is allowed when
LKA-steering is not active. -/
theorem tx_hook_other_address_witness :
    hyundai_canfd_tx_hook sampleCommon sampleLimiters sampleGlobals sampleTrackers
      ⟨0x730, 1, 8, [0x10, 0x03, 0, 0, 0, 0, 0, 0]⟩ = (true, sampleTrackers) :=
  tx_hook_other_address sampleCommon sampleLimiters sampleGlobals sampleTrackers
    ⟨0x730, 1, 8, [0x10, 0x03, 0, 0, 0, 0, 0, 0]⟩ (by decide) (by decide) (by decide) (by decide)

/-! ## Inbound validator: theorems -/

/-- C6. For every inbound frame the rx hook calls `generic_rx_checks` exactly
once, with a boolean that is true exactly when (the address is the variant's
lateral-steering address [LKA-steering: 0x110 with the alternate flag, else
0x50; otherwise 0x12a] and the bus is 0) or (longitudinal is owned, the
address is 0x1a0 and the bus is 1 for LKA-steering, 0 otherwise).  The
boolean does not depend on the payload, and with LKA-steering and the
non-alternate address every frame at 0x50 on bus 0 is reported as
stock-ECU-detected. -/
theorem rx_hook_stock_ecu_detected (c : HyundaiCommon) (g : Globals) (p : CANPacket_t) :
    generic_rx_checks_args (hyundai_canfd_rx_hook c g p) =
      [decide ((GET_ADDR p =
          (if g.hyundai_canfd_lka_steering = true then
            (if g.hyundai_canfd_lka_steering_alt = true then 0x110 else 0x50)
          else 0x12a) ∧ GET_BUS p = 0) ∨
        (g.hyundai_longitudinal = true ∧ GET_ADDR p = 0x1a0 ∧
          GET_BUS p = (if g.hyundai_canfd_lka_steering = true then 1 else 0)))] ∧
    (∀ (len : Nat) (data : List Nat),
      generic_rx_checks_args (hyundai_canfd_rx_hook c g ⟨p.addr, p.bus, len, data⟩) =
        generic_rx_checks_args (hyundai_canfd_rx_hook c g p)) ∧
    (∀ (len : Nat) (data : List Nat),
      generic_rx_checks_args (hyundai_canfd_rx_hook c
        { g with hyundai_canfd_lka_steering := true, hyundai_canfd_lka_steering_alt := false }
        ⟨0x50, 0, len, data⟩) = [true]) := by
  refine ⟨?_, ?_, ?_⟩
  · rw [generic_rx_checks_args_rx_hook, rx_stock_ecu_detected_eq]
  · intro len data
    rw [generic_rx_checks_args_rx_hook, generic_rx_checks_args_rx_hook,
      rx_stock_ecu_detected_eq, rx_stock_ecu_detected_eq]
    rfl
  · intro len data
    rw [generic_rx_checks_args_rx_hook, rx_stock_ecu_detected_eq]
    simp [GET_ADDR, GET_BUS]

/-! ## Bus forwarding policy: theorems -/

/-- C7. For every configuration, source bus and address, the fwd hook returns
2 when the source bus is 0; when the source bus is 2 it returns -1 exactly
for the blocked addresses (with LKA-steering: the LKA address 0x50, or 0x110
if alternate, and its companion 0x2a4, or 0x362 if alternate; without
LKA-steering: 0x12a, 0x1e0, and 0x1a0 only when longitudinal is owned) and 0
for every other address; for every other source bus it returns -1. -/
theorem fwd_hook_policy (g : Globals) (bus_num addr : Int) :
    hyundai_canfd_fwd_hook g bus_num addr =
      (if bus_num = 0 then 2
      else if bus_num = 2 then
        (if g.hyundai_canfd_lka_steering = true then
          (if addr = (if g.hyundai_canfd_lka_steering_alt = true then 0x110 else 0x50) ∨
              addr = (if g.hyundai_canfd_lka_steering_alt = true then 0x362 else 0x2a4)
            then -1 else 0)
        else
          (if addr = 0x12a ∨ addr = 0x1e0 ∨ (addr = 0x1a0 ∧ g.hyundai_longitudinal = true)
            then -1 else 0))
      else -1) := by
  unfold hyundai_canfd_fwd_hook hyundai_canfd_get_lka_addr
  by_cases h0 : bus_num = 0
  · have h2 : bus_num ≠ 2 := by omega
    simp [h0]
  · by_cases h2 : bus_num = 2
    · subst h2
      cases g.hyundai_canfd_lka_steering <;> cases g.hyundai_canfd_lka_steering_alt <;>
        cases g.hyundai_longitudinal <;> simp <;> split_ifs <;> simp_all
    · simp [h0, h2]

/-! ## Configuration selector: theorems -/

/-- C8. For every input parameter and every value of the externally-set
flags, `hyundai_canfd_init` leaves the LKA-steering and camera-SCC flags as
`hyundai_common_init` set them and leaves `hyundai_longitudinal` equal to its
externally-set value forced off when neither of the two holds; so after init
`hyundai_longitudinal` is false or one of the two flags is set, and when
neither is set the returned configuration is the radar-SCC one, which is
neither of the two longitudinal-owned configurations. -/
theorem init_longitudinal_forced_off (c : HyundaiCommon) (param : Nat) (g : Globals) :
    (hyundai_canfd_init c param g).2.hyundai_canfd_lka_steering =
      (c.hyundai_common_init (param % 2 ^ 16) g).hyundai_canfd_lka_steering ∧
    (hyundai_canfd_init c param g).2.hyundai_camera_scc =
      (c.hyundai_common_init (param % 2 ^ 16) g).hyundai_camera_scc ∧
    (hyundai_canfd_init c param g).2.hyundai_longitudinal =
      ((c.hyundai_common_init (param % 2 ^ 16) g).hyundai_longitudinal &&
        ((c.hyundai_common_init (param % 2 ^ 16) g).hyundai_canfd_lka_steering ||
          (c.hyundai_common_init (param % 2 ^ 16) g).hyundai_camera_scc)) ∧
    ((hyundai_canfd_init c param g).2.hyundai_longitudinal = false ∨
      (hyundai_canfd_init c param g).2.hyundai_canfd_lka_steering = true ∨
      (hyundai_canfd_init c param g).2.hyundai_camera_scc = true) ∧
    ((hyundai_canfd_init c param g).2.hyundai_canfd_lka_steering = true ∨
      (hyundai_canfd_init c param g).2.hyundai_camera_scc = true ∨
      ((hyundai_canfd_init c param g).2.hyundai_longitudinal = false ∧
        (hyundai_canfd_init c param g).1 =
          BUILD_SAFETY_CFG hyundai_canfd_radar_scc_rx_checks HYUNDAI_CANFD_LFA_STEERING_TX_MSGS ∧
        (hyundai_canfd_init c param g).1 ≠
          BUILD_SAFETY_CFG hyundai_canfd_lka_steering_long_rx_checks
            HYUNDAI_CANFD_LKA_STEERING_LONG_TX_MSGS ∧
        (hyundai_canfd_init c param g).1 ≠
          BUILD_SAFETY_CFG hyundai_canfd_long_rx_checks HYUNDAI_CANFD_LFA_STEERING_TX_MSGS)) := by
  have hne1 : BUILD_SAFETY_CFG hyundai_canfd_radar_scc_rx_checks
      HYUNDAI_CANFD_LFA_STEERING_TX_MSGS ≠
      BUILD_SAFETY_CFG hyundai_canfd_lka_steering_long_rx_checks
        HYUNDAI_CANFD_LKA_STEERING_LONG_TX_MSGS := by decide
  have hne2 : BUILD_SAFETY_CFG hyundai_canfd_radar_scc_rx_checks
      HYUNDAI_CANFD_LFA_STEERING_TX_MSGS ≠
      BUILD_SAFETY_CFG hyundai_canfd_long_rx_checks HYUNDAI_CANFD_LFA_STEERING_TX_MSGS := by
    decide
  unfold hyundai_canfd_init init_globals init_select
  dsimp only
  cases (c.hyundai_common_init (param % 2 ^ 16) g).hyundai_canfd_lka_steering <;>
    cases (c.hyundai_common_init (param % 2 ^ 16) g).hyundai_camera_scc <;>
    cases (c.hyundai_common_init (param % 2 ^ 16) g).hyundai_longitudinal <;>
    simp [hne1, hne2]

/-- C9. When init runs with a configuration that is non-longitudinal,
non-LKA-steering and camera-sourced cruise, the returned inbound
address-check table contains a check for the cruise/ACC address 0x1a0 bound
to bus 2 with length 32, every 0x1a0 entry of the table is bound to bus 2,
and the returned transmit allow-list is the combined-LFA message set
(0x12A, bus 0, len 16), (0x1A0, bus 0, len 32), (0x1CF, bus 2, len 8),
(0x1E0, bus 0, len 16). -/
theorem init_camera_scc_tables (c : HyundaiCommon) (param : Nat) (g : Globals)
    (hlong : (c.hyundai_common_init (param % 2 ^ 16) g).hyundai_longitudinal = false)
    (hlka : (c.hyundai_common_init (param % 2 ^ 16) g).hyundai_canfd_lka_steering = false)
    (hcam : (c.hyundai_common_init (param % 2 ^ 16) g).hyundai_camera_scc = true) :
    (⟨[⟨0x1a0, 2, 32, true, 0xff, 50⟩, CanMsgCheck.zero, CanMsgCheck.zero]⟩ : RxCheck) ∈
      (hyundai_canfd_init c param g).1.rx_checks ∧
    (∀ chk ∈ (hyundai_canfd_init c param g).1.rx_checks, ∀ m ∈ chk.msg,
      m.addr = 0x1a0 → m.bus = 2 ∧ m.len = 32) ∧
    (hyundai_canfd_init c param g).1.tx_msgs =
      [⟨0x12A, 0, 16⟩, ⟨0x1A0, 0, 32⟩, ⟨0x1CF, 2, 8⟩, ⟨0x1E0, 0, 16⟩] := by
  have hcfg : (hyundai_canfd_init c param g).1 =
      BUILD_SAFETY_CFG hyundai_canfd_rx_checks HYUNDAI_CANFD_LFA_STEERING_TX_MSGS := by
    unfold hyundai_canfd_init init_select
    dsimp only
    rw [init_globals_longitudinal, init_globals_lka_steering, init_globals_camera_scc,
      hlong, hlka, hcam]
    rfl
  rw [hcfg]
  refine ⟨by decide, by decide, rfl⟩

/-- Witness for C9: parameter 8 (camera-sourced cruise only) under the sample
flag decoding. -/
theorem init_camera_scc_tables_witness :
    (hyundai_canfd_init sampleCommon 8 sampleGlobals).1.tx_msgs =
      [⟨0x12A, 0, 16⟩, ⟨0x1A0, 0, 32⟩, ⟨0x1CF, 2, 8⟩, ⟨0x1E0, 0, 16⟩] :=
  (init_camera_scc_tables sampleCommon 8 sampleGlobals (by decide) (by decide) (by decide)).2.2

/-- C10, as stated, fails.  With LKA-steering, no longitudinal and parameter
bit 32 (alternate buttons) set but bit 128 clear, the alternate-button flag is
set and yet the allow-list is the default LKA set; with bit 128 set and bit 32
clear the alternate-button flag is clear and yet the allow-list is the
alternate set. -/
theorem init_lka_alt_buttons_counterexample :
    ((hyundai_canfd_init sampleCommon (16 + 32) sampleGlobals).2.hyundai_longitudinal = false ∧
      (hyundai_canfd_init sampleCommon (16 + 32) sampleGlobals).2.hyundai_canfd_lka_steering
        = true ∧
      (hyundai_canfd_init sampleCommon (16 + 32) sampleGlobals).2.hyundai_canfd_alt_buttons
        = true ∧
      (hyundai_canfd_init sampleCommon (16 + 32) sampleGlobals).1.tx_msgs.map CanMsg.addr
        = [0x50, 0x1CF, 0x2A4] ∧
      (hyundai_canfd_init sampleCommon (16 + 32) sampleGlobals).1.tx_msgs.map CanMsg.addr
        ≠ [0x110, 0x1CF, 0x362]) ∧
    ((hyundai_canfd_init sampleCommon (16 + 128) sampleGlobals).2.hyundai_longitudinal = false ∧
      (hyundai_canfd_init sampleCommon (16 + 128) sampleGlobals).2.hyundai_canfd_lka_steering
        = true ∧
      (hyundai_canfd_init sampleCommon (16 + 128) sampleGlobals).2.hyundai_canfd_alt_buttons
        = false ∧
      (hyundai_canfd_init sampleCommon (16 + 128) sampleGlobals).1.tx_msgs.map CanMsg.addr
        = [0x110, 0x1CF, 0x362] ∧
      (hyundai_canfd_init sampleCommon (16 + 128) sampleGlobals).1.tx_msgs.map CanMsg.addr
        ≠ [0x50, 0x1CF, 0x2A4]) := by
  decide

/-- C10, amended.  `hyundai_canfd_init` returns exactly one of six pairwise
distinct configurations, selected by the longitudinal flag, the LKA-steering
flag, and then either the alternate lateral-steering-address flag (parameter
bit 128) or the camera-SCC flag.  Within the not-longitudinal LKA-steering
case the two configurations are distinguished by parameter bit 128: clear
gives the default LKA set (0x50, 0x1CF, 0x2A4), set gives the alternate set
(0x110, 0x1CF, 0x362).  The alternate-button flag is parameter bit 32. -/
theorem init_selects_one_of_six (c : HyundaiCommon) (param : Nat) (g : Globals) :
    (hyundai_canfd_init c param g).1 =
      (if (hyundai_canfd_init c param g).2.hyundai_longitudinal = true then
        (if (hyundai_canfd_init c param g).2.hyundai_canfd_lka_steering = true then
          BUILD_SAFETY_CFG (HYUNDAI_CANFD_COMMON_RX_CHECKS 1)
            HYUNDAI_CANFD_LKA_STEERING_LONG_TX_MSGS
        else
          BUILD_SAFETY_CFG (HYUNDAI_CANFD_COMMON_RX_CHECKS 0)
            HYUNDAI_CANFD_LFA_STEERING_TX_MSGS)
      else if (hyundai_canfd_init c param g).2.hyundai_canfd_lka_steering = true then
        (if param / 128 % 2 = 1 then
          BUILD_SAFETY_CFG (HYUNDAI_CANFD_COMMON_RX_CHECKS 1 ++ HYUNDAI_CANFD_SCC_ADDR_CHECK 1)
            [⟨0x110, 0, 32⟩, ⟨0x1CF, 1, 8⟩, ⟨0x362, 0, 32⟩]
        else
          BUILD_SAFETY_CFG (HYUNDAI_CANFD_COMMON_RX_CHECKS 1 ++ HYUNDAI_CANFD_SCC_ADDR_CHECK 1)
            [⟨0x50, 0, 16⟩, ⟨0x1CF, 1, 8⟩, ⟨0x2A4, 0, 24⟩])
      else if (hyundai_canfd_init c param g).2.hyundai_camera_scc = true then
        BUILD_SAFETY_CFG (HYUNDAI_CANFD_COMMON_RX_CHECKS 0 ++ HYUNDAI_CANFD_SCC_ADDR_CHECK 2)
          HYUNDAI_CANFD_LFA_STEERING_TX_MSGS
      else
        BUILD_SAFETY_CFG (HYUNDAI_CANFD_COMMON_RX_CHECKS 0 ++ HYUNDAI_CANFD_SCC_ADDR_CHECK 0)
          HYUNDAI_CANFD_LFA_STEERING_TX_MSGS) ∧
    (hyundai_canfd_init c param g).2.hyundai_canfd_lka_steering_alt
      = decide (param / 128 % 2 = 1) ∧
    (hyundai_canfd_init c param g).2.hyundai_canfd_alt_buttons
      = decide (param / 32 % 2 = 1) ∧
    List.Nodup
      [ BUILD_SAFETY_CFG (HYUNDAI_CANFD_COMMON_RX_CHECKS 1)
          HYUNDAI_CANFD_LKA_STEERING_LONG_TX_MSGS,
        BUILD_SAFETY_CFG (HYUNDAI_CANFD_COMMON_RX_CHECKS 0) HYUNDAI_CANFD_LFA_STEERING_TX_MSGS,
        BUILD_SAFETY_CFG (HYUNDAI_CANFD_COMMON_RX_CHECKS 1 ++ HYUNDAI_CANFD_SCC_ADDR_CHECK 1)
          [⟨0x110, 0, 32⟩, ⟨0x1CF, 1, 8⟩, ⟨0x362, 0, 32⟩],
        BUILD_SAFETY_CFG (HYUNDAI_CANFD_COMMON_RX_CHECKS 1 ++ HYUNDAI_CANFD_SCC_ADDR_CHECK 1)
          [⟨0x50, 0, 16⟩, ⟨0x1CF, 1, 8⟩, ⟨0x2A4, 0, 24⟩],
        BUILD_SAFETY_CFG (HYUNDAI_CANFD_COMMON_RX_CHECKS 0 ++ HYUNDAI_CANFD_SCC_ADDR_CHECK 2)
          HYUNDAI_CANFD_LFA_STEERING_TX_MSGS,
        BUILD_SAFETY_CFG (HYUNDAI_CANFD_COMMON_RX_CHECKS 0 ++ HYUNDAI_CANFD_SCC_ADDR_CHECK 0)
          HYUNDAI_CANFD_LFA_STEERING_TX_MSGS ] := by
  have h128 : GET_FLAG (param % 2 ^ 16) HYUNDAI_PARAM_CANFD_LKA_STEERING_ALT
      = decide (param / 128 % 2 = 1) := GET_FLAG_param_bit param 7 (by norm_num)
  have h32 : GET_FLAG (param % 2 ^ 16) HYUNDAI_PARAM_CANFD_ALT_BUTTONS
      = decide (param / 32 % 2 = 1) := GET_FLAG_param_bit param 5 (by norm_num)
  have halt : (hyundai_canfd_init c param g).2.hyundai_canfd_lka_steering_alt
      = decide (param / 128 % 2 = 1) := by
    rw [← h128]
    unfold hyundai_canfd_init init_globals
    dsimp only
    split_ifs <;> rfl
  have hbtn : (hyundai_canfd_init c param g).2.hyundai_canfd_alt_buttons
      = decide (param / 32 % 2 = 1) := by
    rw [← h32]
    unfold hyundai_canfd_init init_globals
    dsimp only
    split_ifs <;> rfl
  refine ⟨?_, halt, hbtn, by decide⟩
  have hsel : (hyundai_canfd_init c param g).1 = init_select (hyundai_canfd_init c param g).2 :=
    rfl
  rw [hsel]
  unfold init_select
  rw [halt]
  cases (hyundai_canfd_init c param g).2.hyundai_longitudinal <;>
    cases (hyundai_canfd_init c param g).2.hyundai_canfd_lka_steering <;>
    cases (hyundai_canfd_init c param g).2.hyundai_camera_scc <;>
    by_cases hb : param / 128 % 2 = 1 <;>
    simp [hb, hyundai_canfd_lka_steering_long_rx_checks, hyundai_canfd_long_rx_checks,
      hyundai_canfd_lka_steering_rx_checks, hyundai_canfd_radar_scc_rx_checks,
      hyundai_canfd_rx_checks, HYUNDAI_CANFD_LKA_STEERING_ALT_TX_MSGS,
      HYUNDAI_CANFD_LKA_STEERING_TX_MSGS]


/-! ## Inbound validator: signal decoding -/

/-- C11. Round trip of the measured steering angle: for every signed 16-bit
wire value `r`, an inbound frame on the powertrain bus at address 0x125 whose
bytes 3 and 4 hold the two's-complement encoding of `r` (byte 3 the high
byte, byte 4 the low byte) makes the rx hook push exactly one sample into the
measured-angle tracker, and that sample is `-10 * r`; two such frames that
yield the same samples encode the same `r`. -/
theorem rx_hook_angle_round_trip (c : HyundaiCommon) (g : Globals) (p : CANPacket_t) (r : Int)
    (hr : -32768 ≤ r ∧ r ≤ 32767)
    (haddr : GET_ADDR p = 0x125) (hbus : GET_BUS p = (if g.hyundai_canfd_lka_steering then 1 else 0))
    (h3 : (GET_BYTE p 3 : Int) = r % 65536 / 256) (h4 : (GET_BYTE p 4 : Int) = r % 65536 % 256) :
    angle_meas_samples (hyundai_canfd_rx_hook c g p) = [-10 * r] ∧
    (∀ (q : CANPacket_t) (s : Int), -32768 ≤ s ∧ s ≤ 32767 → GET_ADDR q = 0x125 →
      GET_BUS q = (if g.hyundai_canfd_lka_steering then 1 else 0) →
      (GET_BYTE q 3 : Int) = s % 65536 / 256 → (GET_BYTE q 4 : Int) = s % 65536 % 256 →
      angle_meas_samples (hyundai_canfd_rx_hook c g q) =
        angle_meas_samples (hyundai_canfd_rx_hook c g p) → s = r) := by
  have key : ∀ (q : CANPacket_t) (s : Int), -32768 ≤ s ∧ s ≤ 32767 → GET_ADDR q = 0x125 →
      GET_BUS q = (if g.hyundai_canfd_lka_steering then 1 else 0) →
      (GET_BYTE q 3 : Int) = s % 65536 / 256 → (GET_BYTE q 4 : Int) = s % 65536 % 256 →
      angle_meas_samples (hyundai_canfd_rx_hook c g q) = [-10 * s] := by
    intro q s hs hqa hqb hq3 hq4
    rw [rx_hook_on_pt_bus c g q hqb (by rw [hqa]; decide), rx_pt_bus_angle c g q hqa]
    have hv : to_signed (((GET_BYTE q 3 * 256 + GET_BYTE q 4 : Nat) : Int)) 16 = s := by
      unfold to_signed
      push_cast
      rw [hq3, hq4]
      norm_num
      split_ifs <;> omega
    rw [hv]
    simp only [angle_meas_samples, List.filterMap_cons, List.filterMap_nil, List.cons_append,
      List.nil_append, RxCall.angle_meas_sample]
    congr 1
    ring
  refine ⟨key p r hr haddr hbus h3 h4, ?_⟩
  intro q s hs hqa hqb hq3 hq4 heq
  rw [key q s hs hqa hqb hq3 hq4, key p r hr haddr hbus h3 h4] at heq
  have := List.head_eq_of_cons_eq heq
  omega

/-- Witness for C11: `r = -1` is encoded as bytes FF FF and decoded as 10. -/
theorem rx_hook_angle_round_trip_witness :
    angle_meas_samples (hyundai_canfd_rx_hook sampleCommon sampleGlobals
      ⟨0x125, 0, 16, [0, 0, 0, 0xff, 0xff]⟩) = [-10 * (-1)] :=
  (rx_hook_angle_round_trip sampleCommon sampleGlobals ⟨0x125, 0, 16, [0, 0, 0, 0xff, 0xff]⟩ (-1)
    (by decide) rfl rfl (by decide) (by decide)).1

/-- C12. For every inbound frame on the powertrain bus at the torque-report
address 0xea, the rx hook pushes exactly one sample into the driver-torque
tracker, equal to `r - 4095` where `r` is the 13-bit field formed from byte 10
(low 8 bits) and the low 5 bits of byte 11; the sample lies in [-4095, 4096],
and a frame that differs only in the top 3 bits of byte 11 yields the same
sample. -/
theorem rx_hook_driver_torque (c : HyundaiCommon) (g : Globals) (p : CANPacket_t)
    (haddr : GET_ADDR p = 0xea)
    (hbus : GET_BUS p = (if g.hyundai_canfd_lka_steering then 1 else 0)) :
    torque_driver_samples (hyundai_canfd_rx_hook c g p) =
      [((GET_BYTE p 11 % 32 * 256 + GET_BYTE p 10 : Nat) : Int) - 4095] ∧
    (-4095 ≤ ((GET_BYTE p 11 % 32 * 256 + GET_BYTE p 10 : Nat) : Int) - 4095 ∧
      ((GET_BYTE p 11 % 32 * 256 + GET_BYTE p 10 : Nat) : Int) - 4095 ≤ 4096) ∧
    (∀ q : CANPacket_t, GET_ADDR q = 0xea →
      GET_BUS q = (if g.hyundai_canfd_lka_steering then 1 else 0) →
      GET_BYTE q 10 = GET_BYTE p 10 → GET_BYTE q 11 % 32 = GET_BYTE p 11 % 32 →
      torque_driver_samples (hyundai_canfd_rx_hook c g q) =
        torque_driver_samples (hyundai_canfd_rx_hook c g p)) := by
  have key : ∀ q : CANPacket_t, GET_ADDR q = 0xea →
      GET_BUS q = (if g.hyundai_canfd_lka_steering then 1 else 0) →
      torque_driver_samples (hyundai_canfd_rx_hook c g q) =
        [((GET_BYTE q 11 % 32 * 256 + GET_BYTE q 10 : Nat) : Int) - 4095] := by
    intro q hqa hqb
    rw [rx_hook_on_pt_bus c g q hqb (by rw [hqa]; decide), rx_pt_bus_torque c g q hqa]
    simp only [torque_driver_samples, List.filterMap_cons, List.filterMap_nil, List.cons_append,
      List.nil_append, RxCall.torque_driver_sample]
  have h10 := GET_BYTE_lt p 10
  refine ⟨key p haddr hbus, ⟨by omega, by omega⟩, ?_⟩
  intro q hqa hqb hq10 hq11
  rw [key q hqa hqb, key p haddr hbus, hq10, hq11]

/-- Witness for C12: a raw field of 4095 + 100 = 0x1063 (byte 10 = 0x63, low
bits of byte 11 = 0x10, top bits of byte 11 set) yields driver torque 100. -/
theorem rx_hook_driver_torque_witness :
    torque_driver_samples (hyundai_canfd_rx_hook sampleCommon sampleGlobals
      ⟨0xea, 0, 24, [0, 0, 0, 0, 0, 0, 0, 0, 0, 0, 0x63, 0xf0]⟩) = [100] :=
  (rx_hook_driver_torque sampleCommon sampleGlobals
    ⟨0xea, 0, 24, [0, 0, 0, 0, 0, 0, 0, 0, 0, 0, 0x63, 0xf0]⟩ rfl rfl).1

/-- C14. For every inbound frame, the rx hook calls the cruise-state tracker
only for a frame at 0x1a0 on the cruise-state bus (2 if camera-sourced cruise,
else the powertrain bus) while longitudinal is not owned, and then exactly
once, with `engaged` true exactly when the 3-bit status field
`(byte 8 >> 4) & 7` is 1 or 2; when longitudinal is owned the tracker is not
called for any frame. -/
theorem rx_hook_cruise_state (c : HyundaiCommon) (g : Globals) (p : CANPacket_t) :
    cruise_state_check_args (hyundai_canfd_rx_hook c g p) =
      (if g.hyundai_longitudinal = false ∧ GET_ADDR p = 0x1a0 ∧
          GET_BUS p = (if g.hyundai_camera_scc = true then 2
            else if g.hyundai_canfd_lka_steering = true then 1 else 0) then
        [decide (GET_BYTE p 8 / 16 % 8 = 1 ∨ GET_BYTE p 8 / 16 % 8 = 2)]
      else []) := by
  have hscc : rx_scc_bus_num g = (if g.hyundai_camera_scc = true then 2
      else if g.hyundai_canfd_lka_steering = true then 1 else 0) := by
    unfold rx_scc_bus_num rx_pt_bus_num
    rfl
  rw [← hscc]
  unfold hyundai_canfd_rx_hook
  dsimp only
  unfold cruise_state_check_args
  rw [List.filterMap_append, List.filterMap_append]
  have hp := cruise_state_check_args_pt_bus c g p
  have hs := cruise_state_check_args_scc_bus g p
  unfold cruise_state_check_args at hp hs
  have hpt : List.filterMap RxCall.cruise_state_arg
      (if GET_BUS p = rx_pt_bus_num g then rx_pt_bus c g p else []) = [] := by
    split_ifs
    · exact hp
    · rfl
  rw [hpt]
  by_cases hb : GET_BUS p = rx_scc_bus_num g
  · rw [if_pos hb, hs]
    by_cases h1 : GET_ADDR p = 0x1a0 <;> cases hl : g.hyundai_longitudinal <;>
      simp [h1, hb, RxCall.cruise_state_arg]
  · rw [if_neg hb]
    simp [hb, RxCall.cruise_state_arg]

/-- C16. `hyundai_canfd_get_counter` returns, for every frame of payload
length 8, the high nibble of byte 1, a value in 0..15, and for every frame of
any other length the full byte 2. -/
theorem get_counter_spec (p : CANPacket_t) :
    hyundai_canfd_get_counter p =
      (if GET_LEN p = 8 then GET_BYTE p 1 / 16 else GET_BYTE p 2) ∧
    (GET_LEN p ≠ 8 ∨ hyundai_canfd_get_counter p ≤ 15) := by
  have h1 := GET_BYTE_lt p 1
  have h2 := GET_BYTE_lt p 2
  unfold hyundai_canfd_get_counter
  by_cases h : GET_LEN p = 8
  · rw [if_pos h, if_pos h, Nat.shiftRight_eq_div_pow]
    norm_num
    constructor
    · omega
    · right
      omega
  · rw [if_neg h, if_neg h]
    exact ⟨Nat.mod_eq_of_lt h2, Or.inl h⟩

/-! ## Outbound validator: acceleration fields -/

/-- C15 at a failing input.  For the 0x1a0 frame with bytes 16..18 equal to
FF F3 BF the first field decodes to 0, and the 11-bit field at bits 140..150
(low 7 bits of byte 18, high nibble of byte 17) is 1023, i.e. 0 after the
bias; the tx hook however takes all 8 bits of byte 18, decodes
`desired_accel_val = 2048`, outside [-1023, 1024], and denies the frame when
longitudinal is not owned. -/
theorem tx_accel_val_exceeds_11_bits :
    tx_desired_accel_raw
      ⟨0x1a0, 0, 32, [0, 0, 0, 0, 0, 0, 0, 0, 0, 0, 0, 0, 0, 0, 0, 0, 0xff, 0xf3, 0xbf]⟩ = 0 ∧
    ((0xbf % 128 * 16 + 0xf3 / 16 : Nat) : Int) - 1023 = 0 ∧
    tx_desired_accel_val
      ⟨0x1a0, 0, 32, [0, 0, 0, 0, 0, 0, 0, 0, 0, 0, 0, 0, 0, 0, 0, 0, 0xff, 0xf3, 0xbf]⟩ = 2048 ∧
    ¬ (tx_desired_accel_val
      ⟨0x1a0, 0, 32, [0, 0, 0, 0, 0, 0, 0, 0, 0, 0, 0, 0, 0, 0, 0, 0, 0xff, 0xf3, 0xbf]⟩ ≤ 1024) ∧
    (hyundai_canfd_tx_hook sampleCommon sampleLimiters sampleGlobals sampleTrackers
      ⟨0x1a0, 0, 32, [0, 0, 0, 0, 0, 0, 0, 0, 0, 0, 0, 0, 0, 0, 0, 0, 0xff, 0xf3, 0xbf]⟩).1
      = false := by
  decide

/-! ## Consistency of the hooks with the configuration selector -/

/-- C17, as stated, fails.  With LKA-steering and longitudinal both set, the
rx hook reports a stock ECU for 0x50 on bus 0 and not for 0x12a, while the tx
hook treats 0x12a as the steering command address: a 0x50 frame carrying
torque 1023 passes the tx hook unchecked and the same payload at 0x12a is
denied by the limiter. -/
theorem rx_tx_steer_addr_counterexample :
    rx_steer_addr
      { sampleGlobals with hyundai_canfd_lka_steering := true, hyundai_longitudinal := true }
      = 0x50 ∧
    tx_steer_addr
      { sampleGlobals with hyundai_canfd_lka_steering := true, hyundai_longitudinal := true }
      = 0x12a ∧
    generic_rx_checks_args (hyundai_canfd_rx_hook sampleCommon
      { sampleGlobals with hyundai_canfd_lka_steering := true, hyundai_longitudinal := true }
      ⟨0x50, 0, 16, []⟩) = [true] ∧
    generic_rx_checks_args (hyundai_canfd_rx_hook sampleCommon
      { sampleGlobals with hyundai_canfd_lka_steering := true, hyundai_longitudinal := true }
      ⟨0x12a, 0, 16, []⟩) = [false] ∧
    (hyundai_canfd_tx_hook sampleCommon sampleLimiters
      { sampleGlobals with hyundai_canfd_lka_steering := true, hyundai_longitudinal := true }
      sampleTrackers ⟨0x50, 0, 16, [0, 0, 0, 0, 0, 0xff, 0x1f, 0]⟩).1 = true ∧
    (hyundai_canfd_tx_hook sampleCommon sampleLimiters
      { sampleGlobals with hyundai_canfd_lka_steering := true, hyundai_longitudinal := true }
      sampleTrackers ⟨0x12a, 1, 16, [0, 0, 0, 0, 0, 0xff, 0x1f, 0]⟩).1 = false := by
  decide

/-- C17, amended.  For every configuration other than LKA-steering with
longitudinal owned, the lateral-steering address whose appearance on bus 0
makes the rx hook report a stock ECU is the address that the tx hook treats as
the steering command address: the two addresses are equal, every frame at
that address on bus 0 is reported, and a frame on bus 0 at an address other
than 0x1a0 is reported only at that address. -/
theorem rx_tx_steer_addr_agree (c : HyundaiCommon) (g : Globals)
    (hcfg : ¬ (g.hyundai_canfd_lka_steering = true ∧ g.hyundai_longitudinal = true)) :
    rx_steer_addr g = tx_steer_addr g ∧
    (∀ p : CANPacket_t, GET_BUS p = 0 → GET_ADDR p = tx_steer_addr g →
      generic_rx_checks_args (hyundai_canfd_rx_hook c g p) = [true]) ∧
    (∀ p : CANPacket_t, GET_BUS p = 0 → GET_ADDR p ≠ 0x1a0 →
      generic_rx_checks_args (hyundai_canfd_rx_hook c g p) = [true] →
      GET_ADDR p = tx_steer_addr g) := by
  have haddr : rx_steer_addr g = tx_steer_addr g := by
    unfold rx_steer_addr tx_steer_addr
    cases hl : g.hyundai_canfd_lka_steering <;> cases hg : g.hyundai_longitudinal
    · rfl
    · rfl
    · rfl
    · exact absurd ⟨hl, hg⟩ hcfg
  have hdet : ∀ p : CANPacket_t, rx_stock_ecu_detected g p =
      (decide (GET_ADDR p = rx_steer_addr g) && decide (GET_BUS p = 0) ||
        (g.hyundai_longitudinal && (decide (GET_ADDR p = 0x1a0) &&
          decide (GET_BUS p = (if g.hyundai_canfd_lka_steering then 1 else 0))))) := by
    intro p
    unfold rx_stock_ecu_detected
    cases g.hyundai_longitudinal <;> simp
  refine ⟨haddr, ?_, ?_⟩
  · intro p hb ha
    rw [generic_rx_checks_args_rx_hook, hdet, haddr, ha, hb]
    simp
  · intro p hb ha hrep
    rw [generic_rx_checks_args_rx_hook, hdet, haddr] at hrep
    have h := List.head_eq_of_cons_eq hrep
    simp [ha] at h
    exact h.1

/-- Witness for C17 (amended): without LKA-steering the shared address is
0x12a. -/
theorem rx_tx_steer_addr_agree_witness :
    rx_steer_addr sampleGlobals = tx_steer_addr sampleGlobals :=
  (rx_tx_steer_addr_agree sampleCommon sampleGlobals (by decide)).1

/-- C18, as stated, fails.  With longitudinal, LKA-steering and the alternate
steering address all set (parameter 4 + 16 + 128 under the sample flag
decoding), the fwd hook withholds 0x110 and 0x362 from bus 2, and neither
address occurs in the transmit allow-list that init returned. -/
theorem fwd_blocked_not_in_tx_counterexample :
    (hyundai_canfd_init sampleCommon (4 + 16 + 128) sampleGlobals).2.hyundai_longitudinal = true ∧
    (hyundai_canfd_init sampleCommon (4 + 16 + 128) sampleGlobals).2.hyundai_canfd_lka_steering
      = true ∧
    (hyundai_canfd_init sampleCommon (4 + 16 + 128) sampleGlobals).2.hyundai_canfd_lka_steering_alt
      = true ∧
    hyundai_canfd_fwd_hook (hyundai_canfd_init sampleCommon (4 + 16 + 128) sampleGlobals).2 2 0x110
      = -1 ∧
    hyundai_canfd_fwd_hook (hyundai_canfd_init sampleCommon (4 + 16 + 128) sampleGlobals).2 2 0x362
      = -1 ∧
    (∀ m ∈ (hyundai_canfd_init sampleCommon (4 + 16 + 128) sampleGlobals).1.tx_msgs,
      m.addr ≠ 0x110 ∧ m.addr ≠ 0x362) := by
  decide

/-- C18, amended.  For every input parameter and external flag setting whose
configuration after init is not (longitudinal and LKA-steering and alternate
steering address), every address that the fwd hook withholds from bus 2 under
the configuration left by init appears with bus 0 in the transmit allow-list
that init returned. -/
theorem fwd_blocked_in_tx_allow_list (c : HyundaiCommon) (param : Nat) (g : Globals)
    (hcfg : ¬ ((hyundai_canfd_init c param g).2.hyundai_longitudinal = true ∧
      (hyundai_canfd_init c param g).2.hyundai_canfd_lka_steering = true ∧
      (hyundai_canfd_init c param g).2.hyundai_canfd_lka_steering_alt = true))
    (addr : Int)
    (hblk : hyundai_canfd_fwd_hook (hyundai_canfd_init c param g).2 2 addr = -1) :
    ∃ m ∈ (hyundai_canfd_init c param g).1.tx_msgs, m.addr = addr ∧ m.bus = 0 :=
  fwd_hook_blocked_in_tx_msgs (hyundai_canfd_init c param g).2 hcfg addr hblk

/-- Witness for C18 (amended): with LKA-steering and the alternate address but
no longitudinal (parameter 16 + 128), the withheld 0x110 is in the allow-list
on bus 0. -/
theorem fwd_blocked_in_tx_allow_list_witness :
    ∃ m ∈ (hyundai_canfd_init sampleCommon (16 + 128) sampleGlobals).1.tx_msgs,
      m.addr = 0x110 ∧ m.bus = 0 :=
  fwd_blocked_in_tx_allow_list sampleCommon (16 + 128) sampleGlobals (by decide) 0x110
    (by decide)

/-- C19, as stated, fails.  With LKA-steering and camera-sourced cruise both
set and no longitudinal (parameter 8 + 16 under the sample flag decoding),
init binds the 0x1a0 check to bus 1 while the rx hook reads the cruise state
on bus 2: an engaged frame on bus 2 reaches the tracker and the same frame on
bus 1 does not. -/
theorem scc_check_bus_counterexample :
    (hyundai_canfd_init sampleCommon (8 + 16) sampleGlobals).2.hyundai_longitudinal = false ∧
    (⟨[⟨0x1a0, 1, 32, true, 0xff, 50⟩, CanMsgCheck.zero, CanMsgCheck.zero]⟩ : RxCheck) ∈
      (hyundai_canfd_init sampleCommon (8 + 16) sampleGlobals).1.rx_checks ∧
    rx_scc_bus_num (hyundai_canfd_init sampleCommon (8 + 16) sampleGlobals).2 = 2 ∧
    cruise_state_check_args (hyundai_canfd_rx_hook sampleCommon
      (hyundai_canfd_init sampleCommon (8 + 16) sampleGlobals).2
      ⟨0x1a0, 2, 32, [0, 0, 0, 0, 0, 0, 0, 0, 0x10]⟩) = [true] ∧
    cruise_state_check_args (hyundai_canfd_rx_hook sampleCommon
      (hyundai_canfd_init sampleCommon (8 + 16) sampleGlobals).2
      ⟨0x1a0, 1, 32, [0, 0, 0, 0, 0, 0, 0, 0, 0x10]⟩) = [] := by
  decide

/-- C19, amended.  In every configuration produced by init, every entry of
the returned inbound address-check table other than the empty slots and the
0x1a0 entry is bound to the powertrain bus the rx hook uses (1 for
LKA-steering, 0 otherwise).  For every non-longitudinal configuration produced
by init in which LKA-steering and camera-sourced cruise are not both set, the
table has a 0x1a0 entry and every 0x1a0 entry is bound to the bus on which the
rx hook reads the cruise state (2 if camera-sourced cruise, else the
powertrain bus). -/
theorem init_rx_check_buses (c : HyundaiCommon) (param : Nat) (g : Globals) :
    (rx_pt_bus_num (hyundai_canfd_init c param g).2 =
      (if (hyundai_canfd_init c param g).2.hyundai_canfd_lka_steering = true then 1 else 0)) ∧
    (rx_scc_bus_num (hyundai_canfd_init c param g).2 =
      (if (hyundai_canfd_init c param g).2.hyundai_camera_scc = true then 2
        else if (hyundai_canfd_init c param g).2.hyundai_canfd_lka_steering = true
          then 1 else 0)) ∧
    (∀ chk ∈ (hyundai_canfd_init c param g).1.rx_checks, ∀ m ∈ chk.msg,
      m.addr ≠ 0 → m.addr ≠ 0x1a0 →
      m.bus = rx_pt_bus_num (hyundai_canfd_init c param g).2) ∧
    ((hyundai_canfd_init c param g).2.hyundai_longitudinal = false →
      ¬ ((hyundai_canfd_init c param g).2.hyundai_canfd_lka_steering = true ∧
        (hyundai_canfd_init c param g).2.hyundai_camera_scc = true) →
      (∃ chk ∈ (hyundai_canfd_init c param g).1.rx_checks, ∃ m ∈ chk.msg, m.addr = 0x1a0) ∧
      (∀ chk ∈ (hyundai_canfd_init c param g).1.rx_checks, ∀ m ∈ chk.msg, m.addr = 0x1a0 →
        m.bus = rx_scc_bus_num (hyundai_canfd_init c param g).2)) :=
  ⟨rfl, rfl, init_select_rx_buses (hyundai_canfd_init c param g).2⟩

/-- Witness for C19 (amended): camera-sourced cruise without LKA-steering
(parameter 8) binds every 0x1a0 entry to bus 2. -/
theorem init_rx_check_buses_witness :
    ∀ chk ∈ (hyundai_canfd_init sampleCommon 8 sampleGlobals).1.rx_checks, ∀ m ∈ chk.msg,
      m.addr = 0x1a0 → m.bus = 2 :=
  ((init_rx_check_buses sampleCommon 8 sampleGlobals).2.2.2 (by decide) (by decide)).2

/-- C20, as stated, fails.  With LKA-steering and longitudinal both set
(parameter 4 + 16 under the sample flag decoding), the allow-list returned by
init holds the steering message 0x50 on bus 0 next to 0x12a on bus 1, while
the tx hook limits only 0x12a: a 0x50 frame carrying torque 1023 is allowed,
and the same payload at 0x12a is denied by the limiter. -/
theorem tx_allowed_steer_msg_unlimited_counterexample :
    (hyundai_canfd_init sampleCommon (4 + 16) sampleGlobals).2.hyundai_longitudinal = true ∧
    (hyundai_canfd_init sampleCommon (4 + 16) sampleGlobals).2.hyundai_canfd_lka_steering
      = true ∧
    (⟨0x50, 0, 16⟩ : CanMsg) ∈ (hyundai_canfd_init sampleCommon (4 + 16) sampleGlobals).1.tx_msgs ∧
    (⟨0x12A, 1, 16⟩ : CanMsg) ∈
      (hyundai_canfd_init sampleCommon (4 + 16) sampleGlobals).1.tx_msgs ∧
    tx_steer_addr (hyundai_canfd_init sampleCommon (4 + 16) sampleGlobals).2 = 0x12a ∧
    tx_desired_torque ⟨0x50, 0, 16, [0, 0, 0, 0, 0, 0xff, 0x1f, 0]⟩ = 1023 ∧
    (sampleLimiters.steer_torque_cmd_checks sampleTrackers 1023 true
      HYUNDAI_CANFD_STEERING_LIMITS).1 = true ∧
    (hyundai_canfd_tx_hook sampleCommon sampleLimiters
      (hyundai_canfd_init sampleCommon (4 + 16) sampleGlobals).2 sampleTrackers
      ⟨0x50, 0, 16, [0, 0, 0, 0, 0, 0xff, 0x1f, 0]⟩).1 = true ∧
    (hyundai_canfd_tx_hook sampleCommon sampleLimiters
      (hyundai_canfd_init sampleCommon (4 + 16) sampleGlobals).2 sampleTrackers
      ⟨0x12a, 1, 16, [0, 0, 0, 0, 0, 0xff, 0x1f, 0]⟩).1 = false := by
  decide

/-- C20, amended.  For every input parameter and external flag setting, the
steering command address that the tx hook checks under the configuration left
by init, (LKA-steering and not longitudinal) ? (alternate ? 0x110 : 0x50) :
0x12a, is the address of an entry of the transmit allow-list returned by
init, and the tx hook denies a frame at that address exactly when the limiter
selected by the angle-steering flag reports a violation on the decoded
command.  In every configuration other than LKA-steering with longitudinal
owned it is the only steering message address (0x50, 0x110, 0x12a) in the
allow-list, so there the steering message the module is permitted to send is
always the one subjected to the steering limiter. -/
theorem tx_steer_addr_allowed_and_limited {σ : Type} (c : HyundaiCommon) (L : Limiters σ)
    (param : Nat) (g : Globals) :
    tx_steer_addr (hyundai_canfd_init c param g).2 =
      (if (hyundai_canfd_init c param g).2.hyundai_canfd_lka_steering = true ∧
          (hyundai_canfd_init c param g).2.hyundai_longitudinal = false then
        (if (hyundai_canfd_init c param g).2.hyundai_canfd_lka_steering_alt = true
          then 0x110 else 0x50)
      else 0x12a) ∧
    (∃ m ∈ (hyundai_canfd_init c param g).1.tx_msgs,
      m.addr = tx_steer_addr (hyundai_canfd_init c param g).2) ∧
    (∀ (s : Trackers σ) (p : CANPacket_t),
      GET_ADDR p = tx_steer_addr (hyundai_canfd_init c param g).2 →
      ((hyundai_canfd_tx_hook c L (hyundai_canfd_init c param g).2 s p).1 = false ↔
        (if (hyundai_canfd_init c param g).2.hyundai_canfd_angle_steering = true then
          (L.steer_angle_cmd_checks s (tx_desired_angle p) (tx_steer_angle_req p)
            HYUNDAI_CANFD_STEERING_LIMITS).1
        else
          (L.steer_torque_cmd_checks s (tx_desired_torque p) (tx_steer_req p)
            HYUNDAI_CANFD_STEERING_LIMITS).1) = true)) ∧
    (¬ ((hyundai_canfd_init c param g).2.hyundai_canfd_lka_steering = true ∧
        (hyundai_canfd_init c param g).2.hyundai_longitudinal = true) →
      ∀ m ∈ (hyundai_canfd_init c param g).1.tx_msgs,
        (m.addr = 0x50 ∨ m.addr = 0x110 ∨ m.addr = 0x12a) →
        m.addr = tx_steer_addr (hyundai_canfd_init c param g).2) :=
  ⟨tx_steer_addr_eq _, (init_select_steer_addr (hyundai_canfd_init c param g).2).1,
    fun s p hp => tx_hook_at_steer_addr c L (hyundai_canfd_init c param g).2 s p hp,
    (init_select_steer_addr (hyundai_canfd_init c param g).2).2⟩

/-- Witness for C20 (amended): with LKA-steering and no longitudinal
(parameter 16) the only steering message of the allow-list is 0x50, and a
0x50 frame carrying torque 1023 is denied by the limiter. -/
theorem tx_steer_addr_allowed_and_limited_witness :
    (∀ m ∈ (hyundai_canfd_init sampleCommon 16 sampleGlobals).1.tx_msgs,
      (m.addr = 0x50 ∨ m.addr = 0x110 ∨ m.addr = 0x12a) → m.addr = 0x50) ∧
    (hyundai_canfd_tx_hook sampleCommon sampleLimiters
      (hyundai_canfd_init sampleCommon 16 sampleGlobals).2 sampleTrackers
      ⟨0x50, 0, 16, [0, 0, 0, 0, 0, 0xff, 0x1f, 0]⟩).1 = false :=
  ⟨(tx_steer_addr_allowed_and_limited sampleCommon sampleLimiters 16 sampleGlobals).2.2.2
      (by decide),
    (((tx_steer_addr_allowed_and_limited sampleCommon sampleLimiters 16 sampleGlobals).2.2.1
      sampleTrackers ⟨0x50, 0, 16, [0, 0, 0, 0, 0, 0xff, 0x1f, 0]⟩ (by decide))).2 (by decide)⟩

end HyundaiCanfd
